import Mathlib

/-!
Shallow embedding of phylib's ALF conversion module (`phylib/io/alf.py`) and of
the sparse projection `from_sparse` (exercised by `phylib/io/tests/test_model.py`).

Modelling conventions:
* machine floats become `ℚ` (exact arithmetic); `np.nan` slots become `Option.none`;
* numpy arrays become (nested) lists; out-of-range numpy indexing, which would
  raise, is modelled with `getD` defaults at places the claims never exercise;
* the filesystem becomes an association list from file names to structured
  file contents; byte-identical equality becomes equality of contents;
* the `+= np.inf` distance penalty becomes a lexicographic sort key whose
  leading component flags cross-probe channels; `np.argsort` is modelled as a
  stable sort (ties resolved by ascending index via the key's last component).
-/

namespace Phylib

/- Core seals the rational-arithmetic primitives; re-opening them lets
concrete runs of the model be settled by `decide`. -/
attribute [local semireducible] Rat.add Rat.mul Rat.sub Rat.inv

/-! ### SparseProjector: `from_sparse`

The function `from_sparse` lives in `phylib/io/model.py`, which is not part of
the sources here; only its test `test_from_sparse` is. -/

/-- Modelled from the spec: `from_sparse(data, cols, channel_ids)` of
`phylib/io/model.py` (not under the available sources; behaviour fixed by
spec §4.3 and by `test_from_sparse`): `out[r, j] = data[r, s]` where `s` is the
local index of `channel_ids[j]` in `cols[r]`, and `0` when that id is absent
from `cols[r]`; a duplicate in `channel_ids` raises (`NotImplementedError`,
called `NotSupportedError` by the spec). -/
def from_sparse (data : List (List ℚ)) (cols : List (List ℕ)) (channel_ids : List ℕ) :
    Except String (List (List ℚ)) :=
  if channel_ids.Nodup then
    .ok ((data.zip cols).map (fun rc =>
      channel_ids.map (fun cid =>
        match rc.2.findIdx? (fun c => c = cid) with
        | some s => rc.1.getD s 0
        | none => 0)))
  else
    .error "NotImplementedError"

/-! ### HeaderReader: `_read_npy_header`

Byte-level model. The payload is decoded and fed to `ast.literal_eval`; we
model the literal evaluator on the dict subset that numpy headers use
(single-quoted strings, `True`/`False`, naturals, tuples of naturals). -/

inductive PyVal where
  | pystr (s : String)
  | pybool (b : Bool)
  | pynat (n : ℕ)
  | pytuple (l : List ℕ)
  deriving DecidableEq, Repr

/-- Skip blanks (spaces and the trailing newline that numpy headers carry). -/
def skipBlanks : List Char → List Char
  | c :: t => if c = ' ' ∨ c = '\n' then skipBlanks t else c :: t
  | [] => []

/-- Consume characters up to (and including) the closing single quote. -/
def takeUntilQuote : List Char → Option (List Char × List Char)
  | [] => none
  | c :: t =>
    if c = '\x27' then some ([], t)
    else (takeUntilQuote t).map (fun p => (c :: p.1, p.2))

/-- Split a leading run of decimal digits. -/
def takeDigits : List Char → List Char × List Char
  | [] => ([], [])
  | c :: t =>
    if c.isDigit then
      let p := takeDigits t
      (c :: p.1, p.2)
    else ([], c :: t)

def digitsToNat (l : List Char) : ℕ :=
  l.foldl (fun acc c => 10 * acc + (c.toNat - 48)) 0

def parseNatTok (s : List Char) : Option (ℕ × List Char) :=
  match takeDigits s with
  | ([], _) => none
  | (ds, rest) => some (digitsToNat ds, rest)

/-- Parse a parenthesised tuple of naturals, after the opening `(` has been
consumed; `fuel` bounds the number of elements. -/
def parseTupleAux (fuel : ℕ) (s : List Char) (acc : List ℕ) :
    Option (List ℕ × List Char) :=
  match fuel with
  | 0 => none
  | fuel + 1 =>
    let s := skipBlanks s
    match s with
    | ')' :: t => some (acc.reverse, t)
    | _ =>
      match parseNatTok s with
      | none => none
      | some (n, rest) =>
        let rest := skipBlanks rest
        match rest with
        | ',' :: t => parseTupleAux fuel t (n :: acc)
        | ')' :: t => some ((n :: acc).reverse, t)
        | _ => none

/-- Parse one Python literal value of the subset used in npy headers. -/
def parsePyVal (s : List Char) : Option (PyVal × List Char) :=
  match skipBlanks s with
  | [] => none
  | '\x27' :: t =>
    (takeUntilQuote t).map (fun p => (PyVal.pystr (String.mk p.1), p.2))
  | 'T' :: 'r' :: 'u' :: 'e' :: t => some (PyVal.pybool true, t)
  | 'F' :: 'a' :: 'l' :: 's' :: 'e' :: t => some (PyVal.pybool false, t)
  | '(' :: t => (parseTupleAux (t.length + 1) t []).map (fun p => (PyVal.pytuple p.1, p.2))
  | s' =>
    (parseNatTok s').map (fun p => (PyVal.pynat p.1, p.2))

/-- Parse the entries of a dict literal after the opening `{`. -/
def parseDictAux (fuel : ℕ) (s : List Char) (acc : List (String × PyVal)) :
    Option (List (String × PyVal) × List Char) :=
  match fuel with
  | 0 => none
  | fuel + 1 =>
    let s := skipBlanks s
    match s with
    | '}' :: t => some (acc.reverse, t)
    | '\x27' :: t =>
      match takeUntilQuote t with
      | none => none
      | some (key, rest) =>
        match skipBlanks rest with
        | ':' :: rest2 =>
          match parsePyVal rest2 with
          | none => none
          | some (v, rest3) =>
            let rest3 := skipBlanks rest3
            match rest3 with
            | ',' :: t2 => parseDictAux fuel t2 ((String.mk key, v) :: acc)
            | '}' :: t2 => some (((String.mk key, v) :: acc).reverse, t2)
            | _ => none
        | _ => none
    | _ => none

/-- Model of `ast.literal_eval` restricted to the dict literals that appear in
npy headers; the whole input (up to trailing blanks) must be the literal. -/
def parsePyDict (s : List Char) : Option (List (String × PyVal)) :=
  match skipBlanks s with
  | '{' :: t =>
    match parseDictAux (t.length + 1) t [] with
    | some (fields, rest) => if skipBlanks rest = [] then some fields else none
    | none => none
  | _ => none

structure NpyHeader where
  magic_string : List ℕ
  version : List ℕ
  hlen : ℕ
  fields : List (String × PyVal)
  deriving DecidableEq, Repr

/-- `int.from_bytes(_, 'little')` on at most two bytes. -/
def littleEndian2 : List ℕ → ℕ
  | [] => 0
  | [a] => a
  | a :: b :: _ => a + 256 * b

/-- The six signature bytes a well-formed npy file starts with
(`\x93NUMPY`). -/
def NPY_MAGIC : List ℕ := [147, 78, 85, 77, 80, 89]

/-- `_read_npy_header(filename)` of `phylib/io/alf.py`: reads six signature
bytes, two version bytes, a two-byte little-endian length, then
`literal_eval`s that many decoded bytes and merges the result into the
returned record.  No byte is validated; `none` models the exception a failed
`literal_eval` raises. -/
def read_npy_header (bytes : List ℕ) : Option NpyHeader :=
  let magic := bytes.take 6
  let r1 := bytes.drop 6
  let version := r1.take 2
  let r2 := r1.drop 2
  let hlen := littleEndian2 (r2.take 2)
  let payload := (r2.drop 2).take hlen
  (parsePyDict (payload.map Char.ofNat)).map
    (fun fs => ⟨magic, version, hlen, fs⟩)

instance {ε α : Type} [DecidableEq ε] [DecidableEq α] : DecidableEq (Except ε α) :=
  fun a b =>
    match a, b with
    | .ok x, .ok y =>
      if h : x = y then isTrue (congrArg Except.ok h)
      else isFalse (fun hh => h (Except.ok.inj hh))
    | .error x, .error y =>
      if h : x = y then isTrue (congrArg Except.error h)
      else isFalse (fun hh => h (Except.error.inj hh))
    | .ok _, .error _ => isFalse (fun hh => Except.noConfusion hh)
    | .error _, .ok _ => isFalse (fun hh => Except.noConfusion hh)

/-! ### Data model: the read-only sorting result (`self.model`) -/

/-- The sparse feature tensor `self.model.sparse_features`:
`data[spike][local][component]` and `cols[group][local]`. -/
structure SparseFeatures where
  data : List (List (List ℚ))
  cols : List (List ℕ)
  deriving DecidableEq, Repr

/-- The attributes of the upstream `TemplateModel` that `EphysAlfCreator`
reads.  Floats are `ℚ`, channel positions are 2-D points. -/
structure TemplateModel where
  spike_times : List ℚ
  spike_samples : List ℚ
  spike_clusters : List ℕ
  amplitudes : List ℚ
  templates_channels : List ℕ
  templates_waveforms_durations : List ℚ
  templates_amplitudes : List ℚ
  channel_positions : List (ℚ × ℚ)
  channel_probes : List ℕ
  channel_mapping : List ℕ
  sparse_templates_data : List (List (List ℚ))
  sparse_templates_cols : Option (List (List ℕ))
  sparse_features : Option SparseFeatures
  deriving DecidableEq, Repr

/-! ### Filesystem model

A directory is an association list from file names to structured contents;
`np.save` appends `.npy` to the names it is given, so all written array files
carry that suffix.  Byte-identical files have equal contents. -/

inductive FileContent where
  | npy1 (v : List ℚ)
  | npy1n (v : List ℕ)
  | npy1z (v : List ℤ)
  | npy1o (v : List (Option ℚ))
  | npy2 (v : List (List ℚ))
  | npy2n (v : List (List ℕ))
  | npy3 (v : List (List (List ℚ)))
  | csv (lines : List String)
  | raw (tag : ℕ)
  deriving DecidableEq, Repr

def FS : Type := List (String × FileContent)

instance : DecidableEq FS := inferInstanceAs (DecidableEq (List (String × FileContent)))

def fsEmpty : FS := []

def fsLookup (fs : FS) (n : String) : Option FileContent :=
  (List.find? (fun p => p.1 = n) fs).map (fun p => p.2)

/-- Write (create or replace in place) one file. -/
def fsWrite : FS → String → FileContent → FS
  | [], n, c => [(n, c)]
  | p :: t, n, c => if p.1 = n then (n, c) :: t else p :: fsWrite t n c

/-- `Path.unlink` when the file exists. -/
def fsErase : FS → String → FS
  | [], _ => []
  | p :: t, n => if p.1 = n then t else p :: fsErase t n

/-- The declared numpy shape of a stored array (the header's `shape` field). -/
def FileContent.shape : FileContent → List ℕ
  | .npy1 v => [v.length]
  | .npy1n v => [v.length]
  | .npy1z v => [v.length]
  | .npy1o v => [v.length]
  | .npy2 v => [v.length, (v.headD []).length]
  | .npy2n v => [v.length, (v.headD []).length]
  | .npy3 v => [v.length, (v.headD []).length, ((v.headD []).headD []).length]
  | .csv _ => []
  | .raw _ => []

/-- `arr.squeeze()` on the `[N, 1]` arrays the copy stage applies it to
(drops the trailing unit dimension; model restricted to `N ≥ 1` column
vectors, the shape the stage tests for). -/
def FileContent.squeezeCol : FileContent → FileContent
  | .npy2 v => .npy1 (v.map (fun r => r.headD 0))
  | .npy2n v => .npy1n (v.map (fun r => r.headD 0))
  | c => c

/-! ### FileMigrator: `copy_files` -/

/-- `_FILE_RENAMES` of `phylib/io/alf.py`: `(file_in, file_out, squeeze)`. -/
def FILE_RENAMES : List (String × String × Option Bool) :=
  [("params.py", "params.py", none),
   ("cluster_metrics.csv", "clusters.metrics.csv", none),
   ("spike_clusters.npy", "spikes.clusters.npy", some true),
   ("spike_templates.npy", "spikes.templates.npy", some true),
   ("channel_positions.npy", "channels.localCoordinates.npy", some false),
   ("channel_probe.npy", "channels.probes.npy", some true),
   ("cluster_probes.npy", "clusters.probes.npy", some true),
   ("cluster_shanks.npy", "clusters.shanks.npy", some true)]

/-- `Path.suffix == ext` (string suffix test). -/
def strEndsWith (s ext : String) : Bool :=
  ext.toList.isSuffixOf s.toList

/-- One iteration of the `copy_files` loop: `_copy_if_possible` (skip when the
source is missing, or when the destination exists and `force` is unset),
followed by the unconditional squeeze rewrite of `[N, 1]` npy sources. -/
def copyOne (src : FS) (force : Bool) (dst : FS)
    (fn0 fn1 : String) (squeeze : Option Bool) : FS :=
  match fsLookup src fn0 with
  | none => dst
  | some c =>
    let dst1 := if (fsLookup dst fn1).isSome ∧ ¬force then dst else fsWrite dst fn1 c
    if squeeze = some true ∧ strEndsWith fn0 ".npy" = true ∧
        c.shape.length = 2 ∧ c.shape.getLast? = some 1 then
      fsWrite dst1 fn1 c.squeezeCol
    else dst1

/-- `EphysAlfCreator.copy_files`. -/
def copy_files (src : FS) (force : Bool) (dst : FS) : FS :=
  FILE_RENAMES.foldl (fun d fr => copyOne src force d fr.1 fr.2.1 fr.2.2) dst

/-! ### Derived spike arrays -/

/-- `EphysAlfCreator.make_spike_times_amplitudes`. -/
def make_spike_times_amplitudes (m : TemplateModel) (ampfactor : ℚ) (dst : FS) : FS :=
  fsWrite (fsWrite (fsWrite dst "spikes.times.npy" (.npy1 m.spike_times))
      "spikes.samples.npy" (.npy1 m.spike_samples))
      "spikes.amps.npy" (.npy1 (m.amplitudes.map (· * ampfactor)))

/-! ### ClusterAggregator: `make_cluster_objects` -/

/-- `_unique`: sorted distinct values of a list of naturals. -/
def uniqueSorted (l : List ℕ) : List ℕ :=
  (List.range (l.foldr max 0 + 1)).filter (fun n => n ∈ l)

/-- The observed cluster ids, `self.cluster_ids = _unique(spike_clusters)`. -/
def cluster_ids (m : TemplateModel) : List ℕ :=
  uniqueSorted m.spike_clusters

/-- The per-cluster amplitude array `camps`: indexed over
`[min cluster id, max cluster id]`, `np.nan` (here `none`) at unobserved
slots, `templates_amplitudes` at observed ones. -/
def camps (m : TemplateModel) : List (Option ℚ) :=
  let cids := cluster_ids m
  let lo := cids.headD 0
  let n := m.spike_clusters.foldr max 0 - lo + 1
  (cids.zip m.templates_amplitudes).foldl
    (fun arr p => arr.set (p.1 - lo) (some p.2))
    (List.replicate n none)

/-- `EphysAlfCreator.make_cluster_objects`: the existence checks for
`clusters.channels.npy` and `clusters.peakToTrough.npy` consult the *source*
directory while `_save_npy` writes into the destination; `clusters.amps.npy`
and `clusters.uuids.csv` are written unconditionally, the uuids freshly drawn
from `uuidStream`. -/
def make_cluster_objects (m : TemplateModel) (ampfactor : ℚ)
    (uuidStream : ℕ → String) (src dst : FS) : FS :=
  let d1 := if fsLookup src "clusters.channels.npy" = none then
      fsWrite dst "clusters.channels.npy" (.npy1n m.templates_channels)
    else dst
  let d2 := if fsLookup src "clusters.peakToTrough.npy" = none then
      fsWrite d1 "clusters.peakToTrough.npy" (.npy1 m.templates_waveforms_durations)
    else d1
  let ca := camps m
  let d3 := fsWrite d2 "clusters.amps.npy" (.npy1o (ca.map (Option.map (· * ampfactor))))
  fsWrite d3 "clusters.uuids.csv" (.csv ("uuids" :: (List.range ca.length).map uuidStream))

/-! ### Channel remap: `make_channel_objects` -/

/-- The `rawInd` computation: per probe (ascending), raw index minus the
accumulated offset; the offset grows by the max mapping value of each probe. -/
def rawIndArr (probes mapping : List ℕ) : List ℤ :=
  let idx := List.range probes.length
  ((uniqueSorted probes).foldl
    (fun (st : List ℤ × ℤ) p =>
      let arr := idx.map (fun i =>
        if probes.getD i 0 = p then (mapping.getD i 0 : ℤ) - st.2 else st.1.getD i 0)
      let mx : ℤ := ((idx.filter (fun i => probes.getD i 0 = p)).map
        (fun i => (mapping.getD i 0 : ℤ))).foldr max 0
      (arr, st.2 + mx))
    (List.replicate probes.length 0, 0)).1

/-- `EphysAlfCreator.make_channel_objects` (despite its docstring it saves
unconditionally). -/
def make_channel_objects (m : TemplateModel) (dst : FS) : FS :=
  fsWrite dst "channels.rawInd.npy" (.npy1z (rawIndArr m.channel_probes m.channel_mapping))

/-! ### DepthEstimator: `make_depths` -/

/-- The error kinds convert can raise. -/
inductive ConvErr where
  | sameDir
  | fileNotFound (name : String)
  | loadError (name : String)
  | notImplemented (msg : String)
  deriving DecidableEq, Repr

/-- One spike's feature-weighted depth, exactly the per-row content of the
batched numpy expression: weights are the squared first components
`data[i][j][0]²`, positions the vertical coordinates of
`cols[spike_clusters[i]]`; `ℚ` division by a zero weight sum yields `0`
(numpy would produce `nan`). -/
def spikeDepth (m : TemplateModel) (sf : SparseFeatures) (i : ℕ) : ℚ :=
  let w := (sf.data.getD i []).map (fun row => row.headD 0 ^ 2)
  let chans := sf.cols.getD (m.spike_clusters.getD i 0) []
  let ypos := chans.map (fun c => (m.channel_positions.getD c (0, 0)).2)
  (((ypos.zip w).map (fun p => p.1 * p.2)).foldr (· + ·) 0) /
    (w.foldr (· + ·) 0)

/-- The batching `while` loop of `make_depths`: process spikes
`[c, min (c + nbatch) nspi)`, advance `c` by `nbatch`, stop once
`c + nbatch ≥ nspi`.  `fuel` only serves termination; `nspi + 1` steps always
suffice when `nbatch ≥ 1`. -/
def depthsLoop (m : TemplateModel) (sf : SparseFeatures) (nbatch nspi : ℕ) :
    ℕ → ℕ → List ℚ
  | _, 0 => []
  | c, fuel + 1 =>
    let hi := min (c + nbatch) nspi
    let batch := (List.range' c (hi - c)).map (spikeDepth m sf)
    if nspi ≤ c + nbatch then batch
    else batch ++ depthsLoop m sf nbatch nspi (c + nbatch) (fuel)

/-- The per-spike depths produced by the batched computation with batch size
`nbatch` (the source fixes `nbatch = 50000`). -/
def spikes_depths_batched (m : TemplateModel) (sf : SparseFeatures) (nbatch : ℕ) :
    List ℚ :=
  depthsLoop m sf nbatch m.spike_times.length 0 (m.spike_times.length + 1)

/-- `clusters_depths = channel_positions[cluster_channels, 1]`. -/
def clusters_depths_of (m : TemplateModel) (v : List ℕ) : List ℚ :=
  v.map (fun ch => (m.channel_positions.getD ch (0, 0)).2)

/-- `spikes.depths`: cluster lookup without a feature tensor, batched
weighted centroid with one. -/
def spikes_depths_of (m : TemplateModel) (v : List ℕ) : List ℚ :=
  match m.sparse_features with
  | none => m.spike_clusters.map (fun cl => (clusters_depths_of m v).getD cl 0)
  | some sf => spikes_depths_batched m sf 50000

/-- `EphysAlfCreator.make_depths`: loads `clusters.channels.npy` from the
*destination* (an absent or non-1-D file aborts the stage), derives
`clusters.depths` as the vertical coordinate of each cluster's peak channel,
and `spikes.depths` either by cluster lookup (no feature tensor) or by the
batched weighted centroid. -/
def make_depths (m : TemplateModel) (dst : FS) : Except ConvErr FS :=
  match fsLookup dst "clusters.channels.npy" with
  | none => .error (.fileNotFound "clusters.channels.npy")
  | some (.npy1n cluster_channels) =>
    .ok (fsWrite (fsWrite dst
          "spikes.depths.npy" (.npy1 (spikes_depths_of m cluster_channels)))
          "clusters.depths.npy" (.npy1 (clusters_depths_of m cluster_channels)))
  | some _ => .error (.loadError "clusters.channels.npy")

/-! ### ChannelSelector: `make_template_object` -/

/-- `NCH_WAVEFORMS` of `phylib/io/alf.py`. -/
def NCH_WAVEFORMS : ℕ := 32

/-- The penalized distance of channel `c` for a template peaking at `peak`,
exactly the information `channel_distance[c]` carries after the
`+= np.inf` penalty: a same-probe channel keeps its finite L1 distance
(component `(0, distance)`), and every cross-probe channel is the single
value `+∞` (component `(1, 0)` — the second coordinate is a fixed dummy, so
all cross-probe channels are mutually tied, as they are in the program). -/
def channelDistKey (m : TemplateModel) (peak c : ℕ) : ℕ × ℚ :=
  let ppos := m.channel_positions.getD peak (0, 0)
  let cpos := m.channel_positions.getD c (0, 0)
  if m.channel_probes.getD c 0 = m.channel_probes.getD peak 0 then
    (0, |cpos.1 - ppos.1| + |cpos.2 - ppos.2|)
  else (1, 0)

/-- Order on penalized distances: compare the infinity flag, then the finite
distance. -/
def distKeyLE (a b : ℕ × ℚ) : Prop :=
  a.1 < b.1 ∨ (a.1 = b.1 ∧ a.2 ≤ b.2)

instance : DecidableRel distKeyLE := fun a b => by
  unfold distKeyLE; exact inferInstance

/-- The full sort key of the modelled argsort: the penalized distance with
the channel index appended, making the model a *stable* argsort of the
program's penalized distances (one specific resolution of the ties numpy's
default sort leaves unspecified). -/
def channelKey (m : TemplateModel) (peak c : ℕ) : ℕ × ℚ × ℕ :=
  ((channelDistKey m peak c).1, (channelDistKey m peak c).2, c)

/-- Lexicographic order on sort keys. -/
def keyLE (a b : ℕ × ℚ × ℕ) : Prop :=
  a.1 < b.1 ∨ (a.1 = b.1 ∧ (a.2.1 < b.2.1 ∨ (a.2.1 = b.2.1 ∧ a.2.2 ≤ b.2.2)))

instance : DecidableRel keyLE := fun a b => by
  unfold keyLE; exact inferInstance

/-- `np.argsort(channel_distance)` for template `t`: all channel indices
sorted by `channelKey` (a stable argsort; cross-probe channels sort last). -/
def templateChannelOrder (m : TemplateModel) (t : ℕ) : List ℕ :=
  let peak := m.templates_channels.getD t 0
  List.insertionSort (fun a b => keyLE (channelKey m peak a) (channelKey m peak b))
    (List.range m.channel_positions.length)

/-- `templates_inds[t] = np.argsort(channel_distance)[:ncw]`. -/
def templates_inds (m : TemplateModel) (ncw t : ℕ) : List ℕ :=
  (templateChannelOrder m t).take ncw

/-- The third dimension `nchall` of the dense template tensor. -/
def nchall (m : TemplateModel) : ℕ :=
  ((m.sparse_templates_data.headD []).headD []).length

/-- The per-template waveform slice `data[t][:, templates_inds[t]]`. -/
def templateSlice (m : TemplateModel) (ncw t : ℕ) : List (List ℚ) :=
  (m.sparse_templates_data.getD t []).map
    (fun samp => (templates_inds m ncw t).map (fun c => samp.getD c 0))

/-- The per-template selected channel indices,
`templates_inds[t] = argsort(distance)[:ncw]` for every template row. -/
def templates_inds_all (m : TemplateModel) : List (List ℕ) :=
  (List.range m.sparse_templates_data.length).map
    (fun t => templates_inds m (min NCH_WAVEFORMS (nchall m)) t)

/-- The per-template waveform slices, scaled by the amplitude factor. -/
def templates_scaled (m : TemplateModel) (ampfactor : ℚ) : List (List (List ℚ)) :=
  (List.range m.sparse_templates_data.length).map
    (fun t => (templateSlice m (min NCH_WAVEFORMS (nchall m)) t).map
      (fun b => b.map (· * ampfactor)))

/-- `EphysAlfCreator.make_template_object`: a present sparse column map is
rejected with `NotImplementedError`; otherwise `ncw = min 32 nchall` channels
are selected per template and the four waveform files are written, the
waveforms scaled by `ampfactor`. -/
def make_template_object (m : TemplateModel) (ampfactor : ℚ) (dst : FS) :
    Except ConvErr FS :=
  match m.sparse_templates_cols with
  | some _ => .error (.notImplemented "Sparse template export to ALF not implemented yet")
  | none =>
    .ok (fsWrite (fsWrite (fsWrite (fsWrite dst
      "templates.waveforms.npy" (.npy3 (templates_scaled m ampfactor)))
      "templates.waveformsChannels.npy" (.npy2n (templates_inds_all m)))
      "clusters.waveforms.npy" (.npy3 (templates_scaled m ampfactor)))
      "clusters.waveformsChannels.npy" (.npy2n (templates_inds_all m)))

/-! ### Cleanup and rename -/

/-- `FILE_DELETES` of `phylib/io/alf.py`. -/
def FILE_DELETES : List String := ["temp_wh.dat"]

/-- `EphysAlfCreator.rm_files`: deletes the scratch files from the *source*. -/
def rm_files (src : FS) : FS :=
  FILE_DELETES.foldl fsErase src

/-- Does a file name match one of the `rename_with_label` glob patterns? -/
def matchesObject (n : String) : Bool :=
  n.startsWith "channels." || n.startsWith "clusters." ||
  n.startsWith "spikes." || n.startsWith "templates."

/-- `f.with_suffix('.label.ext')`: insert the label before the last
extension. -/
def addLabel (label n : String) : String :=
  let parts := n.splitOn "."
  String.intercalate "." (parts.dropLast ++ [label] ++ [parts.getLastD ""])

/-- `EphysAlfCreator.rename_with_label` (a no-op for the empty label). -/
def rename_with_label (label : String) (dst : FS) : FS :=
  if label = "" then dst
  else dst.map (fun p => (if matchesObject p.1 then addLabel label p.1 else p.1, p.2))

/-! ### ConversionOrchestrator: `convert` -/

/-- `EphysAlfCreator.convert`.  `srcPath`/`dstPath` stand for the *resolved*
source and output directories; equal paths raise before anything else
(`mkdir` included).  The result's first component is the raised error, if
any; the other two are the source and destination directories as the run left
them (on an error: at the moment of the raise). -/
def convert (m : TemplateModel) (srcPath dstPath : String) (force : Bool)
    (label : String) (ampfactor : ℚ) (uuidStream : ℕ → String) (src dst : FS) :
    Option ConvErr × FS × FS :=
  if srcPath = dstPath then (some .sameDir, src, dst)
  else
    let d1 := copy_files src force dst
    let d2 := make_spike_times_amplitudes m ampfactor d1
    let d3 := make_cluster_objects m ampfactor uuidStream src d2
    let d4 := make_channel_objects m d3
    match make_depths m d4 with
    | .error e => (some e, src, d4)
    | .ok d5 =>
      match make_template_object m ampfactor d5 with
      | .error e => (some e, src, d5)
      | .ok d6 => (none, rm_files src, rename_with_label label d6)

/-! ### Concrete instances used by witnesses and counterexamples -/

/-- A two-probe layout: channel 0 (the only probe-0 channel) is the peak of
template 0; channels 1 and 2 sit on probe 1, spatially close to channel 0. -/
def M1 : TemplateModel :=
  { spike_times := [1, 2]
    spike_samples := [10, 20]
    spike_clusters := [0, 0]
    amplitudes := [2, 3]
    templates_channels := [0]
    templates_waveforms_durations := [1]
    templates_amplitudes := [5]
    channel_positions := [(0, 0), (0, 1), (0, 2)]
    channel_probes := [0, 1, 1]
    channel_mapping := [0, 0, 1]
    sparse_templates_data := [[[7, 8, 9]]]
    sparse_templates_cols := none
    sparse_features := none }

/-- `M1` with a two-channel template tensor, so that the template's probe
holds at least `min 32 nchall` channels. -/
def M4 : TemplateModel :=
  { M1 with channel_probes := [0, 0, 1], sparse_templates_data := [[[7, 8]]] }

/-- `M1` with a sparse feature tensor (two clusters, two spikes each), for
the depth-batching witness. -/
def M2 : TemplateModel :=
  { M1 with
    spike_times := [1, 2, 3, 4]
    spike_samples := [10, 20, 30, 40]
    spike_clusters := [0, 1, 0, 1]
    amplitudes := [2, 3, 4, 5]
    templates_amplitudes := [5, 6]
    sparse_features := some
      { data := [[[1, 9], [2, 9]], [[3, 9], [1, 9]], [[2, 9], [2, 9]], [[0, 9], [1, 9]]]
        cols := [[0, 1], [1, 2]] } }

/-- A source directory with a passthrough opaque file, a squeezable `[2, 1]`
vector, a verbatim position matrix and the deletable scratch file. -/
def SRC : FS :=
  [("params.py", .raw 0),
   ("spike_clusters.npy", .npy2n [[0], [0]]),
   ("channel_positions.npy", .npy2 [[0, 0], [0, 1], [0, 2]]),
   ("temp_wh.dat", .raw 1)]

/-- Two uuid generators standing for two independent draws of
`uuid.uuid4()`. -/
def uuidsA : ℕ → String := fun _ => "aaaa"

def uuidsB : ℕ → String := fun _ => "bbbb"

def uuidsC : ℕ → String := fun _ => "cccc"

/-- A first conversion run of `M1` out of `SRC` (overwrite disabled). -/
def run1 : Option ConvErr × FS × FS :=
  convert M1 "ks" "alf" false "" 1 uuidsA SRC fsEmpty

/-- A second run over the first run's directories, overwrite still
disabled, with fresh identifiers. -/
def run2 : Option ConvErr × FS × FS :=
  convert M1 "ks" "alf" false "" 1 uuidsB run1.2.1 run1.2.2

/-- A second run over the first run's directories with overwrite enabled. -/
def run3 : Option ConvErr × FS × FS :=
  convert M1 "ks" "alf" true "" 1 uuidsC run1.2.1 run1.2.2

/-- The payload value of a successful sparse projection (`[]` never occurs on
the paths where it is used). -/
def exOk : Except String (List (List ℚ)) → List (List ℚ)
  | .ok o => o
  | .error _ => []

/-- An npy-style header payload (the dict literal the length prefix covers). -/
def c6payload : List ℕ :=
  "\x7b'descr': '<f8', 'fortran_order': False, 'shape': (3, 1), \x7d".toList.map Char.toNat

/-- A file whose six signature bytes are `XXXXXX` and whose version bytes are
`\x09\x09` — neither is what numpy writes — followed by a well-formed
length-prefixed dict literal. -/
def c6bytes : List ℕ :=
  [88, 88, 88, 88, 88, 88] ++ [9, 9] ++
    [c6payload.length % 256, c6payload.length / 256] ++ c6payload

/-- Number of channels on the probe of template `t`'s peak channel. -/
def probeChannelCount (m : TemplateModel) (t : ℕ) : ℕ :=
  ((List.range m.channel_positions.length).filter
    (fun c => m.channel_probes.getD c 0 =
      m.channel_probes.getD (m.templates_channels.getD t 0) 0)).length

/-- The value the copy stage leaves at a destination entry, as a function of
the source entry, the overwrite flag and the previous destination entry
(`_copy_if_possible` followed by the unconditional squeeze rewrite). -/
def copyVal (sv : Option FileContent) (force : Bool) (fn0 : String)
    (squeeze : Option Bool) (dv : Option FileContent) : Option FileContent :=
  match sv with
  | none => dv
  | some c =>
    let dv1 := if dv.isSome ∧ ¬force then dv else some c
    if squeeze = some true ∧ strEndsWith fn0 ".npy" = true ∧
        c.shape.length = 2 ∧ c.shape.getLast? = some 1 then
      some c.squeezeCol
    else dv1

/-- The `clusters.channels.npy` entry as the depth stage will find it: the
cluster stage wrote the peak channels there only when the *source* had no
such file; otherwise whatever the destination already held. -/
def ccVal (m : TemplateModel) (src dst : FS) : Option FileContent :=
  if fsLookup src "clusters.channels.npy" = none then
    some (.npy1n m.templates_channels)
  else fsLookup dst "clusters.channels.npy"

/-! ### C4: sparse projection -/

/-- C4: for a duplicate-free requested id list, `from_sparse` succeeds with
one output row per input row, each of length `m = |channel_ids|`; entry
`(r, j)` is the data value at the local slot where `channel_ids[j]` occurs in
`cols[r]`, and `0` when absent; the output column order follows the requested
id order, as on the concrete vectors of `test_from_sparse`. -/
theorem from_sparse_projects (data : List (List ℚ)) (cols : List (List ℕ))
    (ids : List ℕ) (hn : ids.Nodup) (hrc : data.length = cols.length)
    (r j : ℕ) (hr : r < data.length) (hj : j < ids.length) :
    (from_sparse data cols ids).isOk = true ∧
    (exOk (from_sparse data cols ids)).length = data.length ∧
    ((exOk (from_sparse data cols ids)).getD r []).length = ids.length ∧
    ((exOk (from_sparse data cols ids)).getD r []).getD j 0 =
      (match (cols.getD r []).findIdx? (fun c => c = ids.getD j 0) with
       | some s => (data.getD r []).getD s 0
       | none => 0) ∧
    from_sparse [[0, 1, 2], [3, 4, 5]] [[20, 23, 21], [21, 19, 22]] [19, 21] =
      .ok [[0, 2], [4, 3]] ∧
    from_sparse [[0, 1, 2], [3, 4, 5]] [[20, 23, 21], [21, 19, 22]] [21, 19] =
      .ok [[2, 0], [3, 4]] := by
  have hok : from_sparse data cols ids =
      .ok ((data.zip cols).map (fun rc =>
        ids.map (fun cid =>
          match rc.2.findIdx? (fun c => c = cid) with
          | some s => rc.1.getD s 0
          | none => 0))) := by
    simp [from_sparse, hn]
  have hrc' : r < cols.length := hrc ▸ hr
  have hrz : r < (data.zip cols).length := by
    simp [List.length_zip]; omega
  have hzip : (data.zip cols)[r] = (data[r], cols[r]) := List.getElem_zip ..
  have hb : r < ((data.zip cols).map (fun rc =>
      ids.map (fun cid =>
        match rc.2.findIdx? (fun c => c = cid) with
        | some s => rc.1.getD s 0
        | none => 0))).length := by
    simp [List.length_zip]; omega
  have hrow : (exOk (from_sparse data cols ids)).getD r [] =
      ids.map (fun cid =>
        match cols[r].findIdx? (fun c => c = cid) with
        | some s => data[r].getD s 0
        | none => 0) := by
    rw [hok]
    simp only [exOk]
    rw [List.getD_eq_getElem _ _ hb]
    simp [hzip]
  refine ⟨by rw [hok]; rfl, ?_, ?_, ?_, by decide, by decide⟩
  · rw [hok]
    simp only [exOk]
    simp [List.length_zip]
    omega
  · rw [hrow]
    simp
  · rw [hrow]
    have hbj : j < (ids.map (fun cid =>
        match cols[r].findIdx? (fun c => c = cid) with
        | some s => data[r].getD s 0
        | none => 0)).length := by
      simpa using hj
    rw [List.getD_eq_getElem _ _ hbj]
    simp only [List.getElem_map]
    rw [List.getD_eq_getElem cols [] hrc', List.getD_eq_getElem data [] hr,
      List.getD_eq_getElem ids 0 hj]

theorem from_sparse_projects_witness :
    (from_sparse [[0, 1, 2], [3, 4, 5]] [[20, 23, 21], [21, 19, 22]] [19, 21]).isOk
        = true ∧
    (exOk (from_sparse [[0, 1, 2], [3, 4, 5]] [[20, 23, 21], [21, 19, 22]] [19, 21])).length
        = 2 ∧
    ((exOk (from_sparse [[0, 1, 2], [3, 4, 5]] [[20, 23, 21], [21, 19, 22]] [19, 21])).getD
        1 []).length = 2 ∧
    ((exOk (from_sparse [[0, 1, 2], [3, 4, 5]] [[20, 23, 21], [21, 19, 22]] [19, 21])).getD
        1 []).getD 0 0 =
      (match (([[20, 23, 21], [21, 19, 22]] : List (List ℕ)).getD 1 []).findIdx?
          (fun c => c = ([19, 21] : List ℕ).getD 0 0) with
       | some s => (([[0, 1, 2], [3, 4, 5]] : List (List ℚ)).getD 1 []).getD s 0
       | none => 0) ∧
    from_sparse [[0, 1, 2], [3, 4, 5]] [[20, 23, 21], [21, 19, 22]] [19, 21] =
      .ok [[0, 2], [4, 3]] ∧
    from_sparse [[0, 1, 2], [3, 4, 5]] [[20, 23, 21], [21, 19, 22]] [21, 19] =
      .ok [[2, 0], [3, 4]] :=
  from_sparse_projects [[0, 1, 2], [3, 4, 5]] [[20, 23, 21], [21, 19, 22]] [19, 21]
    (by decide) (by decide) 1 0 (by decide) (by decide)

/-! ### C5: duplicate ids and irregular sparse layouts are fatal -/

/-- C5: a duplicated requested channel id makes `from_sparse` fail with the
unsupported-operation error, and a present (non-empty) sparse column map
makes `make_template_object` fail likewise; both failures return an error
and no result, with no fallback decode. -/
theorem not_supported_failures (data : List (List ℚ)) (cols : List (List ℕ))
    (ids : List ℕ) (hdup : ¬ ids.Nodup)
    (m : TemplateModel) (cs : List (List ℕ)) (hcs : m.sparse_templates_cols = some cs)
    (hne : cs ≠ []) (af : ℚ) (dst : FS) :
    from_sparse data cols ids = .error "NotImplementedError" ∧
    make_template_object m af dst =
      .error (.notImplemented "Sparse template export to ALF not implemented yet") := by
  constructor
  · simp [from_sparse, hdup]
  · simp [make_template_object, hcs]

theorem not_supported_failures_witness :
    from_sparse [[0, 1, 2], [3, 4, 5]] [[20, 23, 21], [21, 19, 22]] [19, 19] =
      .error "NotImplementedError" ∧
    make_template_object { M1 with sparse_templates_cols := some [[0, 1, 2]] } 1 fsEmpty =
      .error (.notImplemented "Sparse template export to ALF not implemented yet") :=
  not_supported_failures [[0, 1, 2], [3, 4, 5]] [[20, 23, 21], [21, 19, 22]] [19, 19]
    (by decide) { M1 with sparse_templates_cols := some [[0, 1, 2]] } [[0, 1, 2]]
    rfl (by decide) 1 fsEmpty

/-! ### C7: equal source and destination fail before any mutation -/

/-- C7: when the resolved source and destination directories coincide,
`convert` raises the configuration error as its very first step and both
directories are returned exactly as they were: nothing has been created,
written, copied, renamed or deleted. -/
theorem convert_same_dir (m : TemplateModel) (srcPath dstPath : String)
    (force : Bool) (label : String) (af : ℚ) (u : ℕ → String) (src dst : FS)
    (h : srcPath = dstPath) :
    convert m srcPath dstPath force label af u src dst = (some .sameDir, src, dst) := by
  simp [convert, h]

theorem convert_same_dir_witness :
    convert M1 "alf_dir" "alf_dir" false "" 1 uuidsA SRC fsEmpty =
      (some .sameDir, SRC, fsEmpty) :=
  convert_same_dir M1 "alf_dir" "alf_dir" false "" 1 uuidsA SRC fsEmpty rfl

/-! ### C8: depth batching is pure partitioning -/

lemma depthsLoop_eq (m : TemplateModel) (sf : SparseFeatures) (nbatch nspi : ℕ) :
    ∀ (fuel c : ℕ), nspi ≤ c + fuel * nbatch →
      depthsLoop m sf nbatch nspi c fuel =
        (List.range' c (nspi - c)).map (spikeDepth m sf) := by
  intro fuel
  induction fuel with
  | zero =>
    intro c hc
    have h0 : nspi - c = 0 := by omega
    simp [depthsLoop, h0]
  | succ fuel ih =>
    intro c hc
    by_cases h : nspi ≤ c + nbatch
    · have hmin : min (c + nbatch) nspi = nspi := by omega
      simp [depthsLoop, h, hmin]
    · have hmin : min (c + nbatch) nspi = c + nbatch := by omega
      have hstep : nspi ≤ c + nbatch + fuel * nbatch := by
        have := hc; rw [Nat.succ_mul] at this; omega
      simp only [depthsLoop, h, if_false, hmin]
      rw [ih (c + nbatch) hstep, ← List.map_append]
      have h2 : c + nbatch - c = nbatch := by omega
      rw [h2, List.range'_append_1]
      have h3 : nspi - (c + nbatch) + nbatch = nspi - c := by omega
      rw [h3]

/-- C8: the batched per-spike depth computation returns the pointwise map of
the per-spike formula over the whole spike range, for every batch size of at
least one; in particular, any two batch sizes give identical outputs. -/
theorem spikes_depths_batch_invariant (m : TemplateModel) (sf : SparseFeatures)
    (n1 n2 : ℕ) (h1 : 1 ≤ n1) (h2 : 1 ≤ n2) :
    spikes_depths_batched m sf n1 = spikes_depths_batched m sf n2 ∧
    spikes_depths_batched m sf n1 =
      (List.range m.spike_times.length).map (spikeDepth m sf) := by
  have key : ∀ n : ℕ, 1 ≤ n → spikes_depths_batched m sf n =
      (List.range m.spike_times.length).map (spikeDepth m sf) := by
    intro n hn
    have hb : m.spike_times.length ≤ 0 + (m.spike_times.length + 1) * n := by
      calc m.spike_times.length ≤ m.spike_times.length + 1 := by omega
        _ ≤ (m.spike_times.length + 1) * n := Nat.le_mul_of_pos_right _ hn
        _ = 0 + (m.spike_times.length + 1) * n := by omega
    rw [spikes_depths_batched, depthsLoop_eq m sf n m.spike_times.length _ 0 hb]
    simp [List.range_eq_range']
  exact ⟨(key n1 h1).trans (key n2 h2).symm, key n1 h1⟩

theorem spikes_depths_batch_invariant_witness :
    spikes_depths_batched M2 (M2.sparse_features.getD ⟨[], []⟩) 7 =
      spikes_depths_batched M2 (M2.sparse_features.getD ⟨[], []⟩) 50000 ∧
    spikes_depths_batched M2 (M2.sparse_features.getD ⟨[], []⟩) 7 =
      (List.range M2.spike_times.length).map
        (spikeDepth M2 (M2.sparse_features.getD ⟨[], []⟩)) :=
  spikes_depths_batch_invariant M2 (M2.sparse_features.getD ⟨[], []⟩) 7 50000
    (by decide) (by decide)

/-! ### C6: the header reader validates nothing -/

theorem read_npy_header_ignores_roles :
    c6bytes.take 6 ≠ NPY_MAGIC ∧
    (List.drop 6 c6bytes).take 2 ≠ [1, 0] ∧
    (read_npy_header c6bytes).isSome = true ∧
    (read_npy_header c6bytes).map NpyHeader.fields =
      some [("descr", .pystr "<f8"), ("fortran_order", .pybool false),
            ("shape", .pytuple [3, 1])] := by
  decide

lemma read_npy_header_split (magic version rest : List ℕ)
    (hm : magic.length = 6) (hv : version.length = 2) :
    read_npy_header (magic ++ version ++ rest) =
      (parsePyDict (((rest.drop 2).take (littleEndian2 (rest.take 2))).map
          Char.ofNat)).map
        (fun fs => ⟨magic, version, littleEndian2 (rest.take 2), fs⟩) := by
  have h1 : (magic ++ (version ++ rest)).take 6 = magic := by
    rw [List.take_append_of_le_length (by omega),
      List.take_of_length_le (le_of_eq hm)]
  have h2 : (magic ++ (version ++ rest)).drop 6 = version ++ rest := by
    rw [show (6 : ℕ) = magic.length + 0 by omega, List.drop_append]
    simp
  have h3 : (version ++ rest).take 2 = version := by
    rw [List.take_append_of_le_length (by omega),
      List.take_of_length_le (le_of_eq hv)]
  have h4 : (version ++ rest).drop 2 = rest := by
    rw [show (2 : ℕ) = version.length + 0 by omega, List.drop_append]
    simp
  unfold read_npy_header
  rw [List.append_assoc]
  simp only [h1, h2, h3, h4]

/-- C6 amended: `_read_npy_header` performs no validation of the signature or
version bytes: for a fixed remainder of the file, any six signature bytes and
any two version bytes produce exactly the same parse outcome and parsed
fields, with the unchecked bytes stored verbatim in the returned record; a
malformed signature/version never aborts the read. -/
theorem read_npy_header_no_validation (m1 v1 m2 v2 rest : List ℕ)
    (hm1 : m1.length = 6) (hv1 : v1.length = 2)
    (hm2 : m2.length = 6) (hv2 : v2.length = 2) :
    (read_npy_header (m1 ++ v1 ++ rest)).map NpyHeader.fields =
      (read_npy_header (m2 ++ v2 ++ rest)).map NpyHeader.fields ∧
    (read_npy_header (m1 ++ v1 ++ rest)).map NpyHeader.magic_string =
      (read_npy_header (m1 ++ v1 ++ rest)).map (fun _ => m1) ∧
    (read_npy_header (m1 ++ v1 ++ rest)).map NpyHeader.version =
      (read_npy_header (m1 ++ v1 ++ rest)).map (fun _ => v1) := by
  rw [read_npy_header_split m1 v1 rest hm1 hv1,
    read_npy_header_split m2 v2 rest hm2 hv2]
  cases parsePyDict (((rest.drop 2).take (littleEndian2 (rest.take 2))).map
      Char.ofNat) <;> simp

theorem read_npy_header_no_validation_witness :
    (read_npy_header ([88, 88, 88, 88, 88, 88] ++ [9, 9] ++
        ([c6payload.length % 256, c6payload.length / 256] ++ c6payload))).map
        NpyHeader.fields =
      (read_npy_header (NPY_MAGIC ++ [1, 0] ++
        ([c6payload.length % 256, c6payload.length / 256] ++ c6payload))).map
        NpyHeader.fields ∧
    (read_npy_header ([88, 88, 88, 88, 88, 88] ++ [9, 9] ++
        ([c6payload.length % 256, c6payload.length / 256] ++ c6payload))).map
        NpyHeader.magic_string =
      (read_npy_header ([88, 88, 88, 88, 88, 88] ++ [9, 9] ++
        ([c6payload.length % 256, c6payload.length / 256] ++ c6payload))).map
        (fun _ => [88, 88, 88, 88, 88, 88]) ∧
    (read_npy_header ([88, 88, 88, 88, 88, 88] ++ [9, 9] ++
        ([c6payload.length % 256, c6payload.length / 256] ++ c6payload))).map
        NpyHeader.version =
      (read_npy_header ([88, 88, 88, 88, 88, 88] ++ [9, 9] ++
        ([c6payload.length % 256, c6payload.length / 256] ++ c6payload))).map
        (fun _ => [9, 9]) :=
  read_npy_header_no_validation [88, 88, 88, 88, 88, 88] [9, 9] NPY_MAGIC [1, 0]
    ([c6payload.length % 256, c6payload.length / 256] ++ c6payload)
    (by decide) (by decide) (by decide) (by decide)

/-! ### C1/C3: nearest-channel selection -/

lemma keyLE_trans {a b c : ℕ × ℚ × ℕ} (h1 : keyLE a b) (h2 : keyLE b c) : keyLE a c := by
  unfold keyLE at h1 h2 ⊢
  rcases h1 with h1 | ⟨e1, h1⟩ <;> rcases h2 with h2 | ⟨e2, h2⟩
  · exact Or.inl (h1.trans h2)
  · exact Or.inl (e2 ▸ h1)
  · exact Or.inl (e1 ▸ h2)
  · refine Or.inr ⟨e1.trans e2, ?_⟩
    rcases h1 with h1 | ⟨f1, h1⟩ <;> rcases h2 with h2 | ⟨f2, h2⟩
    · exact Or.inl (h1.trans h2)
    · exact Or.inl (f2 ▸ h1)
    · exact Or.inl (f1 ▸ h2)
    · exact Or.inr ⟨f1.trans f2, h1.trans h2⟩

lemma keyLE_total (a b : ℕ × ℚ × ℕ) : keyLE a b ∨ keyLE b a := by
  unfold keyLE
  rcases lt_trichotomy a.1 b.1 with h | h | h
  · exact Or.inl (Or.inl h)
  · rcases lt_trichotomy a.2.1 b.2.1 with h2 | h2 | h2
    · exact Or.inl (Or.inr ⟨h, Or.inl h2⟩)
    · rcases le_total a.2.2 b.2.2 with h3 | h3
      · exact Or.inl (Or.inr ⟨h, Or.inr ⟨h2, h3⟩⟩)
      · exact Or.inr (Or.inr ⟨h.symm, Or.inr ⟨h2.symm, h3⟩⟩)
    · exact Or.inr (Or.inr ⟨h.symm, Or.inl h2⟩)
  · exact Or.inr (Or.inl h)

/-- In a list sorted by `r` in which no `p`-false element may precede a
`p`-true one, the first `k` elements all satisfy `p` as long as at least `k`
elements of the whole list do. -/
lemma take_all_sat {α : Type} (r : α → α → Prop) (p : α → Bool)
    (hrp : ∀ x y, p x = false → p y = true → ¬ r x y) :
    ∀ (l : List α), l.Pairwise r → ∀ k, k ≤ (l.filter p).length →
      ∀ c ∈ l.take k, p c = true := by
  intro l
  induction l with
  | nil => intro _ k _ c hc; simp at hc
  | cons a t ih =>
    intro hs k hk c hc
    rw [List.pairwise_cons] at hs
    cases k with
    | zero => simp at hc
    | succ k =>
      rw [List.take_succ_cons] at hc
      rcases List.mem_cons.mp hc with rfl | hc2
      · by_cases hpa : p c = true
        · exact hpa
        · exfalso
          have hpa' : p c = false := by revert hpa; cases h : p c <;> simp
          rw [List.filter_cons] at hk
          simp only [hpa', Bool.false_eq_true, if_false] at hk
          have hpos : 0 < (t.filter p).length := by omega
          obtain ⟨y, hy⟩ := List.exists_mem_of_length_pos hpos
          have hyt := List.mem_filter.mp hy
          exact absurd (hs.1 y hyt.1) (hrp c y hpa' hyt.2)
      · refine ih hs.2 k ?_ c hc2
        rw [List.filter_cons] at hk
        by_cases hpa : p a = true
        · simp only [hpa, if_true] at hk
          simpa using Nat.le_of_succ_le_succ hk
        · have hpa' : p a = false := by revert hpa; cases h : p a <;> simp
          simp only [hpa', Bool.false_eq_true, if_false] at hk
          omega

/-- C1 counterexample: in the two-probe layout `M1`, template 0's peak is
channel 0 on probe 0, yet channels 1 and 2 of probe 1 are selected and
written to `templates.waveformsChannels` (the probe has fewer channels than
`min 32 nchall`, so the infinite-distance cross-probe channels fill the
remaining slots). -/
theorem cross_probe_selected_cex :
    M1.channel_probes.getD 1 0 ≠
      M1.channel_probes.getD (M1.templates_channels.getD 0 0) 0 ∧
    1 ∈ templates_inds M1 (min NCH_WAVEFORMS (nchall M1)) 0 ∧
    make_template_object M1 1 fsEmpty = .ok
      [("templates.waveforms.npy", .npy3 [[[7, 8, 9]]]),
       ("templates.waveformsChannels.npy", .npy2n [[0, 1, 2]]),
       ("clusters.waveforms.npy", .npy3 [[[7, 8, 9]]]),
       ("clusters.waveformsChannels.npy", .npy2n [[0, 1, 2]])] := by
  decide

lemma templateChannelOrder_sorted (m : TemplateModel) (t : ℕ) :
    (templateChannelOrder m t).Pairwise
      (fun a b => keyLE (channelKey m (m.templates_channels.getD t 0) a)
        (channelKey m (m.templates_channels.getD t 0) b)) := by
  haveI : IsTotal ℕ (fun a b => keyLE (channelKey m (m.templates_channels.getD t 0) a)
      (channelKey m (m.templates_channels.getD t 0) b)) :=
    ⟨fun a b => keyLE_total _ _⟩
  haveI : IsTrans ℕ (fun a b => keyLE (channelKey m (m.templates_channels.getD t 0) a)
      (channelKey m (m.templates_channels.getD t 0) b)) :=
    ⟨fun _ _ _ hab hbc => keyLE_trans hab hbc⟩
  exact List.sorted_insertionSort _ _

lemma templateChannelOrder_perm (m : TemplateModel) (t : ℕ) :
    List.Perm (templateChannelOrder m t) (List.range m.channel_positions.length) :=
  List.perm_insertionSort _ _

/-- C1 amended: cross-probe channels (infinite distance) sort after every
same-probe channel, so whenever the peak's probe holds at least
`min 32 nchall` channels, every selected channel lies on the peak's probe;
with fewer same-probe channels the remaining slots are filled by cross-probe
channels (see the counterexample). -/
theorem cross_probe_amended (m : TemplateModel) (t c : ℕ)
    (h : min NCH_WAVEFORMS (nchall m) ≤ probeChannelCount m t)
    (hc : c ∈ templates_inds m (min NCH_WAVEFORMS (nchall m)) t) :
    m.channel_probes.getD c 0 =
      m.channel_probes.getD (m.templates_channels.getD t 0) 0 := by
  have hcnt : List.Perm
      ((templateChannelOrder m t).filter
        (fun c => m.channel_probes.getD c 0 =
          m.channel_probes.getD (m.templates_channels.getD t 0) 0))
      ((List.range m.channel_positions.length).filter
        (fun c => m.channel_probes.getD c 0 =
          m.channel_probes.getD (m.templates_channels.getD t 0) 0)) :=
    (templateChannelOrder_perm m t).filter _
  have hk : min NCH_WAVEFORMS (nchall m) ≤
      ((templateChannelOrder m t).filter
        (fun c => m.channel_probes.getD c 0 =
          m.channel_probes.getD (m.templates_channels.getD t 0) 0)).length := by
    rw [hcnt.length_eq]
    exact h
  have := take_all_sat
    (fun a b => keyLE (channelKey m (m.templates_channels.getD t 0) a)
      (channelKey m (m.templates_channels.getD t 0) b))
    (fun c => m.channel_probes.getD c 0 =
      m.channel_probes.getD (m.templates_channels.getD t 0) 0)
    (fun x y hx hy hr => by
      unfold keyLE channelKey channelDistKey at hr
      simp only [decide_eq_false_iff_not] at hx
      simp only [decide_eq_true_eq] at hy
      simp only [hx, hy, if_false, if_true] at hr
      rcases hr with hr | ⟨hr, _⟩ <;> omega)
    (templateChannelOrder m t) (templateChannelOrder_sorted m t)
    (min NCH_WAVEFORMS (nchall m)) hk c hc
  simpa using this

theorem cross_probe_amended_witness :
    min NCH_WAVEFORMS (nchall M4) ≤ probeChannelCount M4 0 ∧
    1 ∈ templates_inds M4 (min NCH_WAVEFORMS (nchall M4)) 0 ∧
    M4.channel_probes.getD 1 0 =
      M4.channel_probes.getD (M4.templates_channels.getD 0 0) 0 :=
  ⟨by decide, by decide, cross_probe_amended M4 0 1 (by decide) (by decide)⟩

/-- C3 counterexample: in `M1` the selection returns
`min 32 nchall = 3` channels, not `min 32 (probe channel count) = 1`: the
peak's probe holds a single channel but all three recording channels are
selected. -/
theorem nearest_count_cex :
    probeChannelCount M1 0 = 1 ∧
    (templates_inds M1 (min NCH_WAVEFORMS (nchall M1)) 0).length = 3 ∧
    (templates_inds M1 (min NCH_WAVEFORMS (nchall M1)) 0).length ≠
      min 32 (probeChannelCount M1 0) := by
  decide

/-- C3 amended: the selection returns exactly `min 32 nchall` distinct valid
channel indices (`nchall` the total channel count of the template tensor, not
the per-probe count), and it is optimal for the penalized distance — the
L1 distance to the peak with cross-probe channels forced to `+∞`: every
selected channel's penalized distance is at most every unselected channel's.
This comparison is insensitive to how equal penalized distances are resolved,
which the code leaves unspecified (`np.argsort`'s default sort is not
documented stable); the model resolves such ties by ascending channel
index. -/
theorem nearest_selection_amended (m : TemplateModel) (t c d : ℕ)
    (hnch : nchall m ≤ m.channel_positions.length)
    (hc : c ∈ templates_inds m (min NCH_WAVEFORMS (nchall m)) t)
    (hd : d < m.channel_positions.length)
    (hdn : d ∉ templates_inds m (min NCH_WAVEFORMS (nchall m)) t) :
    (templates_inds m (min NCH_WAVEFORMS (nchall m)) t).length =
      min NCH_WAVEFORMS (nchall m) ∧
    (templates_inds m (min NCH_WAVEFORMS (nchall m)) t).Nodup ∧
    c < m.channel_positions.length ∧
    distKeyLE (channelDistKey m (m.templates_channels.getD t 0) c)
              (channelDistKey m (m.templates_channels.getD t 0) d) := by
  have hlen : (templateChannelOrder m t).length =
      m.channel_positions.length := by
    rw [(templateChannelOrder_perm m t).length_eq, List.length_range]
  have hnodup : (templateChannelOrder m t).Nodup :=
    (templateChannelOrder_perm m t).nodup_iff.mpr (List.nodup_range _)
  have hmemc : c ∈ templateChannelOrder m t := List.mem_of_mem_take hc
  have hmemd : d ∈ templateChannelOrder m t :=
    (templateChannelOrder_perm m t).mem_iff.mpr (List.mem_range.mpr hd)
  have hdrop : d ∈ (templateChannelOrder m t).drop (min NCH_WAVEFORMS (nchall m)) := by
    rcases List.mem_append.mp
        ((List.take_append_drop (min NCH_WAVEFORMS (nchall m))
          (templateChannelOrder m t)) ▸ hmemd) with h1 | h1
    · exact absurd h1 hdn
    · exact h1
  refine ⟨?_, ?_, ?_, ?_⟩
  · rw [templates_inds, List.length_take, hlen]
    omega
  · exact List.Nodup.sublist (List.take_sublist _ _) hnodup
  · exact List.mem_range.mp ((templateChannelOrder_perm m t).mem_iff.mp hmemc)
  · have hk := List.Sorted.rel_of_mem_take_of_mem_drop
      (templateChannelOrder_sorted m t) hc hdrop
    unfold keyLE channelKey at hk
    simp only at hk
    unfold distKeyLE
    rcases hk with h | ⟨h1, h | ⟨h2, _⟩⟩
    · exact Or.inl h
    · exact Or.inr ⟨h1, le_of_lt h⟩
    · exact Or.inr ⟨h1, le_of_eq h2⟩

theorem nearest_selection_amended_witness :
    nchall M4 ≤ M4.channel_positions.length ∧
    0 ∈ templates_inds M4 (min NCH_WAVEFORMS (nchall M4)) 0 ∧
    2 ∉ templates_inds M4 (min NCH_WAVEFORMS (nchall M4)) 0 ∧
    ((templates_inds M4 (min NCH_WAVEFORMS (nchall M4)) 0).length =
        min NCH_WAVEFORMS (nchall M4) ∧
      (templates_inds M4 (min NCH_WAVEFORMS (nchall M4)) 0).Nodup ∧
      0 < M4.channel_positions.length ∧
      distKeyLE (channelDistKey M4 (M4.templates_channels.getD 0 0) 0)
                (channelDistKey M4 (M4.templates_channels.getD 0 0) 2)) :=
  ⟨by decide, by decide, by decide,
    nearest_selection_amended M4 0 0 2 (by decide) (by decide) (by decide) (by decide)⟩

/-! ### Filesystem lookup lemmas -/

lemma fsLookup_cons (p : String × FileContent) (t : List (String × FileContent))
    (q : String) :
    fsLookup (p :: t) q = if p.1 = q then some p.2 else fsLookup t q := by
  by_cases h : p.1 = q
  · simp [fsLookup, List.find?_cons_of_pos, h]
  · simp [fsLookup, List.find?_cons_of_neg, h]

lemma fsLookup_fsWrite (fs : FS) (n : String) (c : FileContent) (q : String) :
    fsLookup (fsWrite fs n c) q = if q = n then some c else fsLookup fs q := by
  induction fs with
  | nil =>
    by_cases h : q = n
    · subst h; simp [fsWrite, fsLookup_cons, fsLookup]
    · have hn : ¬ n = q := fun hh => h hh.symm
      simp [fsWrite, fsLookup_cons, h, hn, fsLookup]
  | cons p t ih =>
    by_cases hpn : p.1 = n
    · by_cases hq : q = n
      · subst hq; simp [fsWrite, hpn, fsLookup_cons]
      · have hn : ¬ n = q := fun hh => hq hh.symm
        simp [fsWrite, hpn, fsLookup_cons, hq, hn]
    · by_cases hpq : p.1 = q
      · have hq : ¬ q = n := fun hh => hpn (by rw [hpq, hh])
        simp [fsWrite, hpn, fsLookup_cons, hpq, hq]
      · simp [fsWrite, hpn, fsLookup_cons, hpq, ih]

lemma fsLookup_fsErase_ne (fs : FS) (n q : String) (h : q ≠ n) :
    fsLookup (fsErase fs n) q = fsLookup fs q := by
  induction fs with
  | nil => rfl
  | cons p t ih =>
    by_cases hpn : p.1 = n
    · have hn : ¬ n = q := fun hh => h hh.symm
      simp [fsErase, hpn, fsLookup_cons, hn]
    · by_cases hpq : p.1 = q <;> simp [fsErase, hpn, fsLookup_cons, hpq, ih, h]

lemma rm_files_lookup_ne (src : FS) (q : String) (h : q ≠ "temp_wh.dat") :
    fsLookup (rm_files src) q = fsLookup src q := by
  simp only [rm_files, FILE_DELETES, List.foldl_cons, List.foldl_nil]
  exact fsLookup_fsErase_ne src _ q h

lemma copyOne_lookup_ne (src : FS) (force : Bool) (d : FS) (fn0 fn1 : String)
    (sq : Option Bool) (q : String) (h : q ≠ fn1) :
    fsLookup (copyOne src force d fn0 fn1 sq) q = fsLookup d q := by
  unfold copyOne
  cases fsLookup src fn0 with
  | none => rfl
  | some c =>
    simp only
    split_ifs <;> simp [fsLookup_fsWrite, h]

lemma copyOne_lookup_self (src : FS) (force : Bool) (d : FS) (fn0 fn1 : String)
    (sq : Option Bool) :
    fsLookup (copyOne src force d fn0 fn1 sq) fn1 =
      copyVal (fsLookup src fn0) force fn0 sq (fsLookup d fn1) := by
  unfold copyOne copyVal
  cases fsLookup src fn0 with
  | none => rfl
  | some c =>
    simp only
    split_ifs <;> simp_all [fsLookup_fsWrite]

lemma foldl_copyOne_lookup_ne (src : FS) (force : Bool)
    (L : List (String × String × Option Bool)) (dst : FS) (q : String)
    (hq : ∀ fr ∈ L, q ≠ fr.2.1) :
    fsLookup (L.foldl (fun d fr => copyOne src force d fr.1 fr.2.1 fr.2.2) dst) q =
      fsLookup dst q := by
  induction L generalizing dst with
  | nil => rfl
  | cons a t ih =>
    simp only [List.foldl_cons]
    rw [ih _ (fun fr hfr => hq fr (List.mem_cons_of_mem a hfr)),
      copyOne_lookup_ne src force dst a.1 a.2.1 a.2.2 q (hq a (List.mem_cons_self a t))]

lemma copy_files_lookup_ne (src : FS) (force : Bool) (dst : FS) (q : String)
    (hq : ∀ fr ∈ FILE_RENAMES, q ≠ fr.2.1) :
    fsLookup (copy_files src force dst) q = fsLookup dst q :=
  foldl_copyOne_lookup_ne src force FILE_RENAMES dst q hq

lemma copyVal_false_idem (sv : Option FileContent) (fn0 : String)
    (sq : Option Bool) (dv : Option FileContent) :
    copyVal sv false fn0 sq (copyVal sv false fn0 sq dv) =
      copyVal sv false fn0 sq dv := by
  unfold copyVal
  cases sv with
  | none => rfl
  | some c =>
    simp only
    by_cases hsq : sq = some true ∧ strEndsWith fn0 ".npy" = true ∧
        c.shape.length = 2 ∧ c.shape.getLast? = some 1
    · simp [hsq]
    · simp only [if_neg hsq]
      cases dv <;> simp

/-! ### Per-target lookup values of the copy stage -/

lemma copy_files_lookup_params (src : FS) (force : Bool) (dst : FS) :
    fsLookup (copy_files src force dst) "params.py" =
      copyVal (fsLookup src "params.py") force "params.py" (none)
        (fsLookup dst "params.py") := by
  unfold copy_files FILE_RENAMES
  simp only [List.foldl_cons, List.foldl_nil]
  rw [copyOne_lookup_ne _ _ _ _ _ _ _ (by decide),
    copyOne_lookup_ne _ _ _ _ _ _ _ (by decide),
    copyOne_lookup_ne _ _ _ _ _ _ _ (by decide),
    copyOne_lookup_ne _ _ _ _ _ _ _ (by decide),
    copyOne_lookup_ne _ _ _ _ _ _ _ (by decide),
    copyOne_lookup_ne _ _ _ _ _ _ _ (by decide),
    copyOne_lookup_ne _ _ _ _ _ _ _ (by decide),
    copyOne_lookup_self]

lemma copy_files_lookup_metrics (src : FS) (force : Bool) (dst : FS) :
    fsLookup (copy_files src force dst) "clusters.metrics.csv" =
      copyVal (fsLookup src "cluster_metrics.csv") force "cluster_metrics.csv" (none)
        (fsLookup dst "clusters.metrics.csv") := by
  unfold copy_files FILE_RENAMES
  simp only [List.foldl_cons, List.foldl_nil]
  rw [copyOne_lookup_ne _ _ _ _ _ _ _ (by decide),
    copyOne_lookup_ne _ _ _ _ _ _ _ (by decide),
    copyOne_lookup_ne _ _ _ _ _ _ _ (by decide),
    copyOne_lookup_ne _ _ _ _ _ _ _ (by decide),
    copyOne_lookup_ne _ _ _ _ _ _ _ (by decide),
    copyOne_lookup_ne _ _ _ _ _ _ _ (by decide),
    copyOne_lookup_self,
    copyOne_lookup_ne _ _ _ _ _ _ _ (by decide)]

lemma copy_files_lookup_spikes_clusters (src : FS) (force : Bool) (dst : FS) :
    fsLookup (copy_files src force dst) "spikes.clusters.npy" =
      copyVal (fsLookup src "spike_clusters.npy") force "spike_clusters.npy" (some true)
        (fsLookup dst "spikes.clusters.npy") := by
  unfold copy_files FILE_RENAMES
  simp only [List.foldl_cons, List.foldl_nil]
  rw [copyOne_lookup_ne _ _ _ _ _ _ _ (by decide),
    copyOne_lookup_ne _ _ _ _ _ _ _ (by decide),
    copyOne_lookup_ne _ _ _ _ _ _ _ (by decide),
    copyOne_lookup_ne _ _ _ _ _ _ _ (by decide),
    copyOne_lookup_ne _ _ _ _ _ _ _ (by decide),
    copyOne_lookup_self,
    copyOne_lookup_ne _ _ _ _ _ _ _ (by decide),
    copyOne_lookup_ne _ _ _ _ _ _ _ (by decide)]

lemma copy_files_lookup_spikes_templates (src : FS) (force : Bool) (dst : FS) :
    fsLookup (copy_files src force dst) "spikes.templates.npy" =
      copyVal (fsLookup src "spike_templates.npy") force "spike_templates.npy" (some true)
        (fsLookup dst "spikes.templates.npy") := by
  unfold copy_files FILE_RENAMES
  simp only [List.foldl_cons, List.foldl_nil]
  rw [copyOne_lookup_ne _ _ _ _ _ _ _ (by decide),
    copyOne_lookup_ne _ _ _ _ _ _ _ (by decide),
    copyOne_lookup_ne _ _ _ _ _ _ _ (by decide),
    copyOne_lookup_ne _ _ _ _ _ _ _ (by decide),
    copyOne_lookup_self,
    copyOne_lookup_ne _ _ _ _ _ _ _ (by decide),
    copyOne_lookup_ne _ _ _ _ _ _ _ (by decide),
    copyOne_lookup_ne _ _ _ _ _ _ _ (by decide)]

lemma copy_files_lookup_localCoordinates (src : FS) (force : Bool) (dst : FS) :
    fsLookup (copy_files src force dst) "channels.localCoordinates.npy" =
      copyVal (fsLookup src "channel_positions.npy") force "channel_positions.npy" (some false)
        (fsLookup dst "channels.localCoordinates.npy") := by
  unfold copy_files FILE_RENAMES
  simp only [List.foldl_cons, List.foldl_nil]
  rw [copyOne_lookup_ne _ _ _ _ _ _ _ (by decide),
    copyOne_lookup_ne _ _ _ _ _ _ _ (by decide),
    copyOne_lookup_ne _ _ _ _ _ _ _ (by decide),
    copyOne_lookup_self,
    copyOne_lookup_ne _ _ _ _ _ _ _ (by decide),
    copyOne_lookup_ne _ _ _ _ _ _ _ (by decide),
    copyOne_lookup_ne _ _ _ _ _ _ _ (by decide),
    copyOne_lookup_ne _ _ _ _ _ _ _ (by decide)]

lemma copy_files_lookup_channels_probes (src : FS) (force : Bool) (dst : FS) :
    fsLookup (copy_files src force dst) "channels.probes.npy" =
      copyVal (fsLookup src "channel_probe.npy") force "channel_probe.npy" (some true)
        (fsLookup dst "channels.probes.npy") := by
  unfold copy_files FILE_RENAMES
  simp only [List.foldl_cons, List.foldl_nil]
  rw [copyOne_lookup_ne _ _ _ _ _ _ _ (by decide),
    copyOne_lookup_ne _ _ _ _ _ _ _ (by decide),
    copyOne_lookup_self,
    copyOne_lookup_ne _ _ _ _ _ _ _ (by decide),
    copyOne_lookup_ne _ _ _ _ _ _ _ (by decide),
    copyOne_lookup_ne _ _ _ _ _ _ _ (by decide),
    copyOne_lookup_ne _ _ _ _ _ _ _ (by decide),
    copyOne_lookup_ne _ _ _ _ _ _ _ (by decide)]

lemma copy_files_lookup_clusters_probes (src : FS) (force : Bool) (dst : FS) :
    fsLookup (copy_files src force dst) "clusters.probes.npy" =
      copyVal (fsLookup src "cluster_probes.npy") force "cluster_probes.npy" (some true)
        (fsLookup dst "clusters.probes.npy") := by
  unfold copy_files FILE_RENAMES
  simp only [List.foldl_cons, List.foldl_nil]
  rw [copyOne_lookup_ne _ _ _ _ _ _ _ (by decide),
    copyOne_lookup_self,
    copyOne_lookup_ne _ _ _ _ _ _ _ (by decide),
    copyOne_lookup_ne _ _ _ _ _ _ _ (by decide),
    copyOne_lookup_ne _ _ _ _ _ _ _ (by decide),
    copyOne_lookup_ne _ _ _ _ _ _ _ (by decide),
    copyOne_lookup_ne _ _ _ _ _ _ _ (by decide),
    copyOne_lookup_ne _ _ _ _ _ _ _ (by decide)]

lemma copy_files_lookup_clusters_shanks (src : FS) (force : Bool) (dst : FS) :
    fsLookup (copy_files src force dst) "clusters.shanks.npy" =
      copyVal (fsLookup src "cluster_shanks.npy") force "cluster_shanks.npy" (some true)
        (fsLookup dst "clusters.shanks.npy") := by
  unfold copy_files FILE_RENAMES
  simp only [List.foldl_cons, List.foldl_nil]
  rw [copyOne_lookup_self,
    copyOne_lookup_ne _ _ _ _ _ _ _ (by decide),
    copyOne_lookup_ne _ _ _ _ _ _ _ (by decide),
    copyOne_lookup_ne _ _ _ _ _ _ _ (by decide),
    copyOne_lookup_ne _ _ _ _ _ _ _ (by decide),
    copyOne_lookup_ne _ _ _ _ _ _ _ (by decide),
    copyOne_lookup_ne _ _ _ _ _ _ _ (by decide),
    copyOne_lookup_ne _ _ _ _ _ _ _ (by decide)]

/-! ### Structure of a successful `convert` run -/

lemma lookup_cc_stage4 (m : TemplateModel) (af : ℚ) (u : ℕ → String)
    (src dst : FS) (force : Bool) :
    fsLookup (make_channel_objects m (make_cluster_objects m af u src
      (make_spike_times_amplitudes m af (copy_files src force dst))))
      "clusters.channels.npy" = ccVal m src dst := by
  have hcopy : fsLookup (copy_files src force dst) "clusters.channels.npy" =
      fsLookup dst "clusters.channels.npy" :=
    copy_files_lookup_ne src force dst _ (by decide)
  unfold make_channel_objects make_cluster_objects make_spike_times_amplitudes ccVal
  simp only [apply_ite (fun fs => fsLookup fs "clusters.channels.npy"),
    fsLookup_fsWrite]
  split_ifs <;> simp_all

/-- A successful `convert` run (empty label) fixes the source result and the
shape of the destination: the source only loses the scratch file, the sparse
column map was absent, the depth stage found a 1-D `clusters.channels.npy`
whose content is `ccVal`, and the destination is the full write chain. -/
lemma convert_ok_parts (m : TemplateModel) (p q : String) (force : Bool)
    (af : ℚ) (u : ℕ → String) (src dst s d : FS)
    (h : convert m p q force "" af u src dst = (none, s, d)) :
    p ≠ q ∧ s = rm_files src ∧ m.sparse_templates_cols = none ∧
    ∃ v, ccVal m src dst = some (.npy1n v) ∧
      d = fsWrite (fsWrite (fsWrite (fsWrite (fsWrite (fsWrite
            (make_channel_objects m (make_cluster_objects m af u src
              (make_spike_times_amplitudes m af (copy_files src force dst))))
            "spikes.depths.npy" (.npy1 (spikes_depths_of m v)))
            "clusters.depths.npy" (.npy1 (clusters_depths_of m v)))
            "templates.waveforms.npy" (.npy3 (templates_scaled m af)))
            "templates.waveformsChannels.npy" (.npy2n (templates_inds_all m)))
            "clusters.waveforms.npy" (.npy3 (templates_scaled m af)))
            "clusters.waveformsChannels.npy" (.npy2n (templates_inds_all m)) := by
  by_cases hpq : p = q
  · simp [convert, hpq] at h
  · refine ⟨hpq, ?_⟩
    simp only [convert, if_neg hpq] at h
    rcases hd : make_depths m (make_channel_objects m (make_cluster_objects m af u src
        (make_spike_times_amplitudes m af (copy_files src force dst)))) with e | d5
    · rw [hd] at h; simp at h
    · rw [hd] at h
      rcases hcols : m.sparse_templates_cols with _ | cs
      · simp only [make_template_object, hcols] at h
        have hs : s = rm_files src := by
          have := congrArg (fun x => x.2.1) h
          simpa using this.symm
        have hdd : d = rename_with_label ""
            (fsWrite (fsWrite (fsWrite (fsWrite d5
              "templates.waveforms.npy" (.npy3 (templates_scaled m af)))
              "templates.waveformsChannels.npy" (.npy2n (templates_inds_all m)))
              "clusters.waveforms.npy" (.npy3 (templates_scaled m af)))
              "clusters.waveformsChannels.npy" (.npy2n (templates_inds_all m))) := by
          have := congrArg (fun x => x.2.2) h
          simpa using this.symm
        refine ⟨hs, rfl, ?_⟩
        unfold make_depths at hd
        rcases hcc : fsLookup (make_channel_objects m (make_cluster_objects m af u src
            (make_spike_times_amplitudes m af (copy_files src force dst))))
            "clusters.channels.npy" with _ | c
        · rw [hcc] at hd; simp at hd
        · rw [hcc] at hd
          cases c with
          | npy1n v =>
            refine ⟨v, by rw [← lookup_cc_stage4 m af u src dst force, hcc], ?_⟩
            simp only [Except.ok.injEq] at hd
            rw [hdd, rename_with_label, if_pos rfl, ← hd]
          | npy1 v => simp at hd
          | npy1z v => simp at hd
          | npy1o v => simp at hd
          | npy2 v => simp at hd
          | npy2n v => simp at hd
          | npy3 v => simp at hd
          | csv v => simp at hd
          | raw v => simp at hd
      · simp [make_template_object, hcols] at h

/-- Stages 2–4 leave every file they do not own untouched. -/
lemma lookup_stages_ne (m : TemplateModel) (af : ℚ) (u : ℕ → String)
    (src d0 : FS) (name : String)
    (h1 : name ≠ "channels.rawInd.npy") (h2 : name ≠ "clusters.uuids.csv")
    (h3 : name ≠ "clusters.amps.npy") (h4 : name ≠ "clusters.peakToTrough.npy")
    (h5 : name ≠ "clusters.channels.npy") (h6 : name ≠ "spikes.amps.npy")
    (h7 : name ≠ "spikes.samples.npy") (h8 : name ≠ "spikes.times.npy") :
    fsLookup (make_channel_objects m (make_cluster_objects m af u src
      (make_spike_times_amplitudes m af d0))) name = fsLookup d0 name := by
  unfold make_channel_objects make_cluster_objects make_spike_times_amplitudes
  simp only [apply_ite (fun fs => fsLookup fs name), fsLookup_fsWrite,
    if_neg h1, if_neg h2, if_neg h3, if_neg h4, if_neg h5, if_neg h6, if_neg h7,
    if_neg h8, ite_self]

/-- The value stages 2–4 leave at `spikes.times.npy`. -/
lemma stage4_lookup_times (m : TemplateModel) (af : ℚ) (u : ℕ → String)
    (src d0 : FS) :
    fsLookup (make_channel_objects m (make_cluster_objects m af u src
      (make_spike_times_amplitudes m af d0))) "spikes.times.npy" =
      some (.npy1 m.spike_times) := by
  unfold make_channel_objects make_cluster_objects make_spike_times_amplitudes
  simp only [apply_ite (fun fs => fsLookup fs "spikes.times.npy"), fsLookup_fsWrite]
  simp

/-- The value stages 2–4 leave at `spikes.samples.npy`. -/
lemma stage4_lookup_samples (m : TemplateModel) (af : ℚ) (u : ℕ → String)
    (src d0 : FS) :
    fsLookup (make_channel_objects m (make_cluster_objects m af u src
      (make_spike_times_amplitudes m af d0))) "spikes.samples.npy" =
      some (.npy1 m.spike_samples) := by
  unfold make_channel_objects make_cluster_objects make_spike_times_amplitudes
  simp only [apply_ite (fun fs => fsLookup fs "spikes.samples.npy"), fsLookup_fsWrite]
  simp

/-- The value stages 2–4 leave at `spikes.amps.npy`: the raw amplitudes
multiplied by the scale factor. -/
lemma stage4_lookup_amps (m : TemplateModel) (af : ℚ) (u : ℕ → String)
    (src d0 : FS) :
    fsLookup (make_channel_objects m (make_cluster_objects m af u src
      (make_spike_times_amplitudes m af d0))) "spikes.amps.npy" =
      some (.npy1 (m.amplitudes.map (· * af))) := by
  unfold make_channel_objects make_cluster_objects make_spike_times_amplitudes
  simp only [apply_ite (fun fs => fsLookup fs "spikes.amps.npy"), fsLookup_fsWrite]
  simp

/-- The value stages 2–4 leave at `clusters.amps.npy`: the per-cluster
amplitudes multiplied by the scale factor (`nan` slots stay `nan`). -/
lemma stage4_lookup_camps (m : TemplateModel) (af : ℚ) (u : ℕ → String)
    (src d0 : FS) :
    fsLookup (make_channel_objects m (make_cluster_objects m af u src
      (make_spike_times_amplitudes m af d0))) "clusters.amps.npy" =
      some (.npy1o ((camps m).map (Option.map (· * af)))) := by
  unfold make_channel_objects make_cluster_objects
  simp only [apply_ite (fun fs => fsLookup fs "clusters.amps.npy"), fsLookup_fsWrite]
  simp

/-- The value stages 2–4 leave at `clusters.uuids.csv`. -/
lemma stage4_lookup_uuids (m : TemplateModel) (af : ℚ) (u : ℕ → String)
    (src d0 : FS) :
    fsLookup (make_channel_objects m (make_cluster_objects m af u src
      (make_spike_times_amplitudes m af d0))) "clusters.uuids.csv" =
      some (.csv ("uuids" :: (List.range (camps m).length).map u)) := by
  unfold make_channel_objects make_cluster_objects
  simp only [apply_ite (fun fs => fsLookup fs "clusters.uuids.csv"), fsLookup_fsWrite]
  simp

/-- The value stages 2–4 leave at `channels.rawInd.npy`. -/
lemma stage4_lookup_rawInd (m : TemplateModel) (af : ℚ) (u : ℕ → String)
    (src d0 : FS) :
    fsLookup (make_channel_objects m (make_cluster_objects m af u src
      (make_spike_times_amplitudes m af d0))) "channels.rawInd.npy" =
      some (.npy1z (rawIndArr m.channel_probes m.channel_mapping)) := by
  unfold make_channel_objects
  simp [fsLookup_fsWrite]

/-- The value stages 2–4 leave at `clusters.peakToTrough.npy`: written from
the model only when the *source* directory lacks the file. -/
lemma stage4_lookup_ptt (m : TemplateModel) (af : ℚ) (u : ℕ → String)
    (src d0 : FS) :
    fsLookup (make_channel_objects m (make_cluster_objects m af u src
      (make_spike_times_amplitudes m af d0))) "clusters.peakToTrough.npy" =
      (if fsLookup src "clusters.peakToTrough.npy" = none then
        some (.npy1 m.templates_waveforms_durations)
      else fsLookup d0 "clusters.peakToTrough.npy") := by
  unfold make_channel_objects make_cluster_objects make_spike_times_amplitudes
  simp only [apply_ite (fun fs => fsLookup fs "clusters.peakToTrough.npy"),
    fsLookup_fsWrite]
  simp

/-- The no-clobber half: with overwrite disabled, a second `convert` run over
the same source re-copies nothing but rewrites every derived output with the
same deterministic value, so every destination file except
`clusters.uuids.csv` is byte-identical to its state after the first run. -/
theorem convert_noclobber_pointwise (m : TemplateModel) (p q : String) (af : ℚ)
    (u1 u2 : ℕ → String) (src dst s1 d1 s2 d2 : FS) (name : String)
    (h1 : convert m p q false "" af u1 src dst = (none, s1, d1))
    (h2 : convert m p q false "" af u2 s1 d1 = (none, s2, d2))
    (hname : name ≠ "clusters.uuids.csv") :
    fsLookup d2 name = fsLookup d1 name := by
  obtain ⟨hpq, hs1, hcols, v1, hv1, hd1⟩ :=
    convert_ok_parts m p q false af u1 src dst s1 d1 h1
  subst hs1
  obtain ⟨-, hs2, -, v2, hv2, hd2⟩ :=
    convert_ok_parts m p q false af u2 (rm_files src) d1 s2 d2 h2
  -- both runs load the same cluster-channel vector in the depth stage
  have hccs : ccVal m (rm_files src) d1 = ccVal m src dst := by
    unfold ccVal
    rw [rm_files_lookup_ne src _ (by decide)]
    by_cases hsc : fsLookup src "clusters.channels.npy" = none
    · simp [hsc]
    · simp only [if_neg hsc]
      rw [hd1]
      simp only [fsLookup_fsWrite]
      simp only [show ("clusters.channels.npy" : String) ≠ "clusters.waveformsChannels.npy"
          from by decide, show ("clusters.channels.npy" : String) ≠ "clusters.waveforms.npy"
          from by decide, show ("clusters.channels.npy" : String) ≠ "templates.waveformsChannels.npy"
          from by decide, show ("clusters.channels.npy" : String) ≠ "templates.waveforms.npy"
          from by decide, show ("clusters.channels.npy" : String) ≠ "clusters.depths.npy"
          from by decide, show ("clusters.channels.npy" : String) ≠ "spikes.depths.npy"
          from by decide, if_neg]
      rw [lookup_cc_stage4]
      unfold ccVal
      simp [hsc]
  have hvv : v2 = v1 := by
    rw [hccs, hv1] at hv2
    exact (FileContent.npy1n.inj (Option.some.inj hv2)).symm
  subst hvv
  -- name by name over everything the second run writes
  by_cases e1 : name = "clusters.waveformsChannels.npy"
  · subst e1; rw [hd2, hd1]; simp [fsLookup_fsWrite]
  by_cases e2 : name = "clusters.waveforms.npy"
  · subst e2; rw [hd2, hd1]; simp [fsLookup_fsWrite]
  by_cases e3 : name = "templates.waveformsChannels.npy"
  · subst e3; rw [hd2, hd1]; simp [fsLookup_fsWrite]
  by_cases e4 : name = "templates.waveforms.npy"
  · subst e4; rw [hd2, hd1]; simp [fsLookup_fsWrite]
  by_cases e5 : name = "clusters.depths.npy"
  · subst e5; rw [hd2, hd1]; simp [fsLookup_fsWrite]
  by_cases e6 : name = "spikes.depths.npy"
  · subst e6; rw [hd2, hd1]; simp [fsLookup_fsWrite]
  -- below the six template/depth writes the lookup reaches stage 4
  have hpush2 : fsLookup d2 name =
      fsLookup (make_channel_objects m (make_cluster_objects m af u2 (rm_files src)
        (make_spike_times_amplitudes m af (copy_files (rm_files src) false d1))))
        name := by
    rw [hd2]
    simp only [fsLookup_fsWrite, if_neg e1, if_neg e2, if_neg e3, if_neg e4,
      if_neg e5, if_neg e6]
  have hpush1 : fsLookup d1 name =
      fsLookup (make_channel_objects m (make_cluster_objects m af u1 src
        (make_spike_times_amplitudes m af (copy_files src false dst))))
        name := by
    rw [hd1]
    simp only [fsLookup_fsWrite, if_neg e1, if_neg e2, if_neg e3, if_neg e4,
      if_neg e5, if_neg e6]
  rw [hpush2]
  by_cases e7 : name = "channels.rawInd.npy"
  · subst e7; rw [hpush1, stage4_lookup_rawInd, stage4_lookup_rawInd]
  by_cases e8 : name = "clusters.channels.npy"
  · subst e8; rw [hpush1, lookup_cc_stage4, lookup_cc_stage4, hccs]
  by_cases e9 : name = "clusters.amps.npy"
  · subst e9; rw [hpush1, stage4_lookup_camps, stage4_lookup_camps]
  by_cases e11 : name = "spikes.amps.npy"
  · subst e11; rw [hpush1, stage4_lookup_amps, stage4_lookup_amps]
  by_cases e12 : name = "spikes.samples.npy"
  · subst e12; rw [hpush1, stage4_lookup_samples, stage4_lookup_samples]
  by_cases e13 : name = "spikes.times.npy"
  · subst e13; rw [hpush1, stage4_lookup_times, stage4_lookup_times]
  by_cases e10 : name = "clusters.peakToTrough.npy"
  · subst e10
    rw [stage4_lookup_ptt, rm_files_lookup_ne src _ (by decide)]
    by_cases hpt : fsLookup src "clusters.peakToTrough.npy" = none
    · rw [hpush1, stage4_lookup_ptt]
      simp [hpt]
    · simp only [if_neg hpt]
      rw [copy_files_lookup_ne _ _ _ _ (by decide)]
  -- names the derived stages never write: land in the copy stage
  rw [lookup_stages_ne _ _ _ _ _ _ e7 hname e9 e10 e8 e11 e12 e13]
  have hstep1 : fsLookup d1 name = fsLookup (copy_files src false dst) name := by
    rw [hpush1, lookup_stages_ne _ _ _ _ _ _ e7 hname e9 e10 e8 e11 e12 e13]
  by_cases f1 : name = "params.py"
  · subst f1
    rw [copy_files_lookup_params, rm_files_lookup_ne src _ (by decide), hstep1,
      copy_files_lookup_params, copyVal_false_idem]
  by_cases f2 : name = "clusters.metrics.csv"
  · subst f2
    rw [copy_files_lookup_metrics, rm_files_lookup_ne src _ (by decide), hstep1,
      copy_files_lookup_metrics, copyVal_false_idem]
  by_cases f3 : name = "spikes.clusters.npy"
  · subst f3
    rw [copy_files_lookup_spikes_clusters, rm_files_lookup_ne src _ (by decide),
      hstep1, copy_files_lookup_spikes_clusters, copyVal_false_idem]
  by_cases f4 : name = "spikes.templates.npy"
  · subst f4
    rw [copy_files_lookup_spikes_templates, rm_files_lookup_ne src _ (by decide),
      hstep1, copy_files_lookup_spikes_templates, copyVal_false_idem]
  by_cases f5 : name = "channels.localCoordinates.npy"
  · subst f5
    rw [copy_files_lookup_localCoordinates, rm_files_lookup_ne src _ (by decide),
      hstep1, copy_files_lookup_localCoordinates, copyVal_false_idem]
  by_cases f6 : name = "channels.probes.npy"
  · subst f6
    rw [copy_files_lookup_channels_probes, rm_files_lookup_ne src _ (by decide),
      hstep1, copy_files_lookup_channels_probes, copyVal_false_idem]
  by_cases f7 : name = "clusters.probes.npy"
  · subst f7
    rw [copy_files_lookup_clusters_probes, rm_files_lookup_ne src _ (by decide),
      hstep1, copy_files_lookup_clusters_probes, copyVal_false_idem]
  by_cases f8 : name = "clusters.shanks.npy"
  · subst f8
    rw [copy_files_lookup_clusters_shanks, rm_files_lookup_ne src _ (by decide),
      hstep1, copy_files_lookup_clusters_shanks, copyVal_false_idem]
  -- untouched names pass straight through the copy stage
  rw [copy_files_lookup_ne _ _ _ _
    (by
      intro fr hfr
      simp only [FILE_RENAMES, List.mem_cons, List.not_mem_nil, or_false] at hfr
      rcases hfr with rfl | rfl | rfl | rfl | rfl | rfl | rfl | rfl <;>
        simp_all)]

/-- C2 counterexample: two `convert` runs with overwrite disabled both
succeed, but the second run rewrites `clusters.uuids.csv` with freshly drawn
identifiers, so that file is not byte-identical after the second run — the
claimed "no write on the second run / byte-identical outputs" fails. -/
theorem convert_noclobber_cex :
    (convert M1 "ks" "alf" false "" 1 uuidsA SRC fsEmpty).1 = none ∧
    (convert M1 "ks" "alf" false "" 1 uuidsB
        (convert M1 "ks" "alf" false "" 1 uuidsA SRC fsEmpty).2.1
        (convert M1 "ks" "alf" false "" 1 uuidsA SRC fsEmpty).2.2).1 = none ∧
    fsLookup (convert M1 "ks" "alf" false "" 1 uuidsA SRC fsEmpty).2.2
        "clusters.uuids.csv" = some (.csv ["uuids", "aaaa"]) ∧
    fsLookup (convert M1 "ks" "alf" false "" 1 uuidsB
        (convert M1 "ks" "alf" false "" 1 uuidsA SRC fsEmpty).2.1
        (convert M1 "ks" "alf" false "" 1 uuidsA SRC fsEmpty).2.2).2.2
        "clusters.uuids.csv" = some (.csv ["uuids", "bbbb"]) ∧
    fsLookup (convert M1 "ks" "alf" false "" 1 uuidsB
        (convert M1 "ks" "alf" false "" 1 uuidsA SRC fsEmpty).2.1
        (convert M1 "ks" "alf" false "" 1 uuidsA SRC fsEmpty).2.2).2.2
        "clusters.uuids.csv" ≠
      fsLookup (convert M1 "ks" "alf" false "" 1 uuidsA SRC fsEmpty).2.2
        "clusters.uuids.csv" := by
  decide

theorem convert_noclobber_pointwise_witness :
    fsLookup (convert M1 "ks" "alf" false "" 1 uuidsB
        (convert M1 "ks" "alf" false "" 1 uuidsA SRC fsEmpty).2.1
        (convert M1 "ks" "alf" false "" 1 uuidsA SRC fsEmpty).2.2).2.2
        "spikes.amps.npy" =
      fsLookup (convert M1 "ks" "alf" false "" 1 uuidsA SRC fsEmpty).2.2
        "spikes.amps.npy" :=
  convert_noclobber_pointwise M1 "ks" "alf" 1 uuidsA uuidsB SRC fsEmpty
    (convert M1 "ks" "alf" false "" 1 uuidsA SRC fsEmpty).2.1
    (convert M1 "ks" "alf" false "" 1 uuidsA SRC fsEmpty).2.2
    (convert M1 "ks" "alf" false "" 1 uuidsB
      (convert M1 "ks" "alf" false "" 1 uuidsA SRC fsEmpty).2.1
      (convert M1 "ks" "alf" false "" 1 uuidsA SRC fsEmpty).2.2).2.1
    (convert M1 "ks" "alf" false "" 1 uuidsB
      (convert M1 "ks" "alf" false "" 1 uuidsA SRC fsEmpty).2.1
      (convert M1 "ks" "alf" false "" 1 uuidsA SRC fsEmpty).2.2).2.2
    "spikes.amps.npy" (by decide) (by decide) (by decide)

/-- After any successful run, a following run loads the same
`clusters.channels.npy` content as the first one did. -/
lemma ccVal_second_run (m : TemplateModel) (p q : String) (f1 : Bool) (af : ℚ)
    (u1 : ℕ → String) (src dst s1 d1 : FS)
    (h1 : convert m p q f1 "" af u1 src dst = (none, s1, d1)) :
    s1 = rm_files src ∧ ccVal m (rm_files src) d1 = ccVal m src dst := by
  obtain ⟨hpq, hs1, hcols, v1, hv1, hd1⟩ :=
    convert_ok_parts m p q f1 af u1 src dst s1 d1 h1
  refine ⟨hs1, ?_⟩
  unfold ccVal
  rw [rm_files_lookup_ne src _ (by decide)]
  by_cases hsc : fsLookup src "clusters.channels.npy" = none
  · simp [hsc]
  · simp only [if_neg hsc]
    rw [hd1]
    simp only [fsLookup_fsWrite]
    simp only [show ("clusters.channels.npy" : String) ≠ "clusters.waveformsChannels.npy"
        from by decide, show ("clusters.channels.npy" : String) ≠ "clusters.waveforms.npy"
        from by decide, show ("clusters.channels.npy" : String) ≠ "templates.waveformsChannels.npy"
        from by decide, show ("clusters.channels.npy" : String) ≠ "templates.waveforms.npy"
        from by decide, show ("clusters.channels.npy" : String) ≠ "clusters.depths.npy"
        from by decide, show ("clusters.channels.npy" : String) ≠ "spikes.depths.npy"
        from by decide, if_neg]
    rw [lookup_cc_stage4]
    unfold ccVal
    simp [hsc]

/-- The depth- and template-stage write chain leaves every other name
untouched. -/
lemma lookup_depthtmpl_ne (base : FS) (m : TemplateModel) (af : ℚ)
    (v : List ℕ) (name : String)
    (e1 : name ≠ "clusters.waveformsChannels.npy")
    (e2 : name ≠ "clusters.waveforms.npy")
    (e3 : name ≠ "templates.waveformsChannels.npy")
    (e4 : name ≠ "templates.waveforms.npy")
    (e5 : name ≠ "clusters.depths.npy") (e6 : name ≠ "spikes.depths.npy") :
    fsLookup (fsWrite (fsWrite (fsWrite (fsWrite (fsWrite (fsWrite base
      "spikes.depths.npy" (.npy1 (spikes_depths_of m v)))
      "clusters.depths.npy" (.npy1 (clusters_depths_of m v)))
      "templates.waveforms.npy" (.npy3 (templates_scaled m af)))
      "templates.waveformsChannels.npy" (.npy2n (templates_inds_all m)))
      "clusters.waveforms.npy" (.npy3 (templates_scaled m af)))
      "clusters.waveformsChannels.npy" (.npy2n (templates_inds_all m))) name =
    fsLookup base name := by
  simp only [fsLookup_fsWrite, if_neg e1, if_neg e2, if_neg e3, if_neg e4,
    if_neg e5, if_neg e6]

/-- C2 amended: with overwrite disabled, a second `convert` run re-copies
nothing but rewrites every derived output with the same deterministic value,
so every destination file except `clusters.uuids.csv` is byte-identical to
its state after the first run (first conjunct); with overwrite enabled on
the second run, every output file is replaced: each derived output is
rewritten from the model alone (fresh uuids included), and each passthrough
target whose source file exists is re-copied (or squeeze-rewritten) from the
source, the destination's previous value playing no role (last conjunct). -/
theorem convert_noclobber_and_force (m : TemplateModel) (p q : String)
    (af : ℚ) (u1 u2 u3 : ℕ → String) (src dst s1 d1 s2 d2 s3 d3 : FS)
    (name : String) (v : List ℕ) (fn0 fn1 : String) (sq : Option Bool)
    (c : FileContent)
    (h1 : convert m p q false "" af u1 src dst = (none, s1, d1))
    (h2 : convert m p q false "" af u2 s1 d1 = (none, s2, d2))
    (h3 : convert m p q true "" af u3 s1 d1 = (none, s3, d3))
    (hname : name ≠ "clusters.uuids.csv")
    (hv : ccVal m src dst = some (.npy1n v))
    (hmem : (fn0, fn1, sq) ∈ FILE_RENAMES)
    (hc : fsLookup src fn0 = some c) :
    fsLookup d2 name = fsLookup d1 name ∧
    fsLookup d3 "spikes.times.npy" = some (.npy1 m.spike_times) ∧
    fsLookup d3 "spikes.samples.npy" = some (.npy1 m.spike_samples) ∧
    fsLookup d3 "spikes.amps.npy" = some (.npy1 (m.amplitudes.map (· * af))) ∧
    fsLookup d3 "clusters.amps.npy" =
      some (.npy1o ((camps m).map (Option.map (· * af)))) ∧
    fsLookup d3 "clusters.uuids.csv" =
      some (.csv ("uuids" :: (List.range (camps m).length).map u3)) ∧
    fsLookup d3 "channels.rawInd.npy" =
      some (.npy1z (rawIndArr m.channel_probes m.channel_mapping)) ∧
    fsLookup d3 "spikes.depths.npy" = some (.npy1 (spikes_depths_of m v)) ∧
    fsLookup d3 "clusters.depths.npy" = some (.npy1 (clusters_depths_of m v)) ∧
    fsLookup d3 "templates.waveforms.npy" = some (.npy3 (templates_scaled m af)) ∧
    fsLookup d3 "templates.waveformsChannels.npy" =
      some (.npy2n (templates_inds_all m)) ∧
    fsLookup d3 "clusters.waveforms.npy" = some (.npy3 (templates_scaled m af)) ∧
    fsLookup d3 "clusters.waveformsChannels.npy" =
      some (.npy2n (templates_inds_all m)) ∧
    fsLookup d3 fn1 =
      (if sq = some true ∧ strEndsWith fn0 ".npy" = true ∧
          c.shape.length = 2 ∧ c.shape.getLast? = some 1 then
        some c.squeezeCol
      else some c) := by
  have hnc := convert_noclobber_pointwise m p q af u1 u2 src dst s1 d1 s2 d2
    name h1 h2 hname
  obtain ⟨hs1, hccs⟩ := ccVal_second_run m p q false af u1 src dst s1 d1 h1
  subst hs1
  obtain ⟨hpq3, hs3, hcols3, v3, hv3, hd3⟩ :=
    convert_ok_parts m p q true af u3 (rm_files src) d1 s3 d3 h3
  have hv3e : v3 = v := by
    rw [hccs, hv] at hv3
    exact (FileContent.npy1n.inj (Option.some.inj hv3)).symm
  subst hv3e
  refine ⟨hnc, ?_, ?_, ?_, ?_, ?_, ?_, ?_, ?_, ?_, ?_, ?_, ?_, ?_⟩
  · rw [hd3]; simp [fsLookup_fsWrite, stage4_lookup_times]
  · rw [hd3]; simp [fsLookup_fsWrite, stage4_lookup_samples]
  · rw [hd3]; simp [fsLookup_fsWrite, stage4_lookup_amps]
  · rw [hd3]; simp [fsLookup_fsWrite, stage4_lookup_camps]
  · rw [hd3]; simp [fsLookup_fsWrite, stage4_lookup_uuids]
  · rw [hd3]; simp [fsLookup_fsWrite, stage4_lookup_rawInd]
  · rw [hd3]; simp [fsLookup_fsWrite]
  · rw [hd3]; simp [fsLookup_fsWrite]
  · rw [hd3]; simp [fsLookup_fsWrite]
  · rw [hd3]; simp [fsLookup_fsWrite]
  · rw [hd3]; simp [fsLookup_fsWrite]
  · rw [hd3]; simp [fsLookup_fsWrite]
  · simp only [FILE_RENAMES, List.mem_cons, List.not_mem_nil, or_false] at hmem
    rcases hmem with h8 | h8 | h8 | h8 | h8 | h8 | h8 | h8 <;>
      (simp only [Prod.mk.injEq] at h8; obtain ⟨rfl, rfl, rfl⟩ := h8) <;>
      rw [hd3, lookup_depthtmpl_ne _ _ _ _ _ (by decide) (by decide) (by decide)
        (by decide) (by decide) (by decide),
        lookup_stages_ne _ _ _ _ _ _ (by decide) (by decide) (by decide)
        (by decide) (by decide) (by decide) (by decide) (by decide)]
    · rw [copy_files_lookup_params, rm_files_lookup_ne src _ (by decide), hc]
      simp [copyVal]
    · rw [copy_files_lookup_metrics, rm_files_lookup_ne src _ (by decide), hc]
      simp [copyVal]
    · rw [copy_files_lookup_spikes_clusters,
        rm_files_lookup_ne src _ (by decide), hc]
      simp [copyVal]
    · rw [copy_files_lookup_spikes_templates,
        rm_files_lookup_ne src _ (by decide), hc]
      simp [copyVal]
    · rw [copy_files_lookup_localCoordinates,
        rm_files_lookup_ne src _ (by decide), hc]
      simp [copyVal]
    · rw [copy_files_lookup_channels_probes,
        rm_files_lookup_ne src _ (by decide), hc]
      simp [copyVal]
    · rw [copy_files_lookup_clusters_probes,
        rm_files_lookup_ne src _ (by decide), hc]
      simp [copyVal]
    · rw [copy_files_lookup_clusters_shanks,
        rm_files_lookup_ne src _ (by decide), hc]
      simp [copyVal]

theorem convert_noclobber_and_force_witness :
    fsLookup run2.2.2 "spikes.times.npy" = fsLookup run1.2.2 "spikes.times.npy" ∧
    fsLookup run3.2.2 "spikes.times.npy" = some (.npy1 M1.spike_times) ∧
    fsLookup run3.2.2 "spikes.samples.npy" = some (.npy1 M1.spike_samples) ∧
    fsLookup run3.2.2 "spikes.amps.npy" =
      some (.npy1 (M1.amplitudes.map (· * 1))) ∧
    fsLookup run3.2.2 "clusters.amps.npy" =
      some (.npy1o ((camps M1).map (Option.map (· * 1)))) ∧
    fsLookup run3.2.2 "clusters.uuids.csv" =
      some (.csv ("uuids" :: (List.range (camps M1).length).map uuidsC)) ∧
    fsLookup run3.2.2 "channels.rawInd.npy" =
      some (.npy1z (rawIndArr M1.channel_probes M1.channel_mapping)) ∧
    fsLookup run3.2.2 "spikes.depths.npy" =
      some (.npy1 (spikes_depths_of M1 [0])) ∧
    fsLookup run3.2.2 "clusters.depths.npy" =
      some (.npy1 (clusters_depths_of M1 [0])) ∧
    fsLookup run3.2.2 "templates.waveforms.npy" =
      some (.npy3 (templates_scaled M1 1)) ∧
    fsLookup run3.2.2 "templates.waveformsChannels.npy" =
      some (.npy2n (templates_inds_all M1)) ∧
    fsLookup run3.2.2 "clusters.waveforms.npy" =
      some (.npy3 (templates_scaled M1 1)) ∧
    fsLookup run3.2.2 "clusters.waveformsChannels.npy" =
      some (.npy2n (templates_inds_all M1)) ∧
    fsLookup run3.2.2 "spikes.clusters.npy" =
      (if (some true : Option Bool) = some true ∧
          strEndsWith "spike_clusters.npy" ".npy" = true ∧
          (FileContent.npy2n [[0], [0]]).shape.length = 2 ∧
          (FileContent.npy2n [[0], [0]]).shape.getLast? = some 1 then
        some (FileContent.npy2n [[0], [0]]).squeezeCol
      else some (FileContent.npy2n [[0], [0]])) :=
  convert_noclobber_and_force M1 "ks" "alf" 1 uuidsA uuidsB uuidsC SRC fsEmpty
    run1.2.1 run1.2.2 run2.2.1 run2.2.2 run3.2.1 run3.2.2
    "spikes.times.npy" [0] "spike_clusters.npy" "spikes.clusters.npy" (some true)
    (FileContent.npy2n [[0], [0]])
    (by decide) (by decide) (by decide) (by decide) (by decide) (by decide)
    (by decide)

/-! ### C9: amplitude scaling never touches the depth outputs -/

/-- C9: two successful `convert` runs over the same input that differ only in
the amplitude scale factor produce identical `spikes.depths` and
`clusters.depths` files, while each run's per-spike amplitudes, per-cluster
amplitudes and waveform outputs carry its own factor as a multiplier. -/
theorem convert_ampfactor_asymmetry (m : TemplateModel) (p q : String)
    (force : Bool) (a b : ℚ) (u : ℕ → String) (src dst sa da sb db : FS)
    (ha : convert m p q force "" a u src dst = (none, sa, da))
    (hb : convert m p q force "" b u src dst = (none, sb, db)) :
    fsLookup da "spikes.depths.npy" = fsLookup db "spikes.depths.npy" ∧
    fsLookup da "clusters.depths.npy" = fsLookup db "clusters.depths.npy" ∧
    fsLookup da "spikes.amps.npy" = some (.npy1 (m.amplitudes.map (· * a))) ∧
    fsLookup db "spikes.amps.npy" = some (.npy1 (m.amplitudes.map (· * b))) ∧
    fsLookup da "clusters.amps.npy" =
      some (.npy1o ((camps m).map (Option.map (· * a)))) ∧
    fsLookup db "clusters.amps.npy" =
      some (.npy1o ((camps m).map (Option.map (· * b)))) ∧
    fsLookup da "templates.waveforms.npy" = some (.npy3 (templates_scaled m a)) ∧
    fsLookup db "templates.waveforms.npy" = some (.npy3 (templates_scaled m b)) ∧
    fsLookup da "clusters.waveforms.npy" = some (.npy3 (templates_scaled m a)) ∧
    fsLookup db "clusters.waveforms.npy" = some (.npy3 (templates_scaled m b)) := by
  obtain ⟨hpq, hsa, hcols, va, hva, hda⟩ :=
    convert_ok_parts m p q force a u src dst sa da ha
  obtain ⟨-, hsb, -, vb, hvb, hdb⟩ :=
    convert_ok_parts m p q force b u src dst sb db hb
  have hv : vb = va := by
    rw [hva] at hvb
    exact (FileContent.npy1n.inj (Option.some.inj hvb)).symm
  subst hv
  refine ⟨?_, ?_, ?_, ?_, ?_, ?_, ?_, ?_, ?_, ?_⟩
  · rw [hda, hdb]; simp [fsLookup_fsWrite]
  · rw [hda, hdb]; simp [fsLookup_fsWrite]
  · rw [hda]; simp [fsLookup_fsWrite, stage4_lookup_amps]
  · rw [hdb]; simp [fsLookup_fsWrite, stage4_lookup_amps]
  · rw [hda]; simp [fsLookup_fsWrite, stage4_lookup_camps]
  · rw [hdb]; simp [fsLookup_fsWrite, stage4_lookup_camps]
  · rw [hda]; simp [fsLookup_fsWrite]
  · rw [hdb]; simp [fsLookup_fsWrite]
  · rw [hda]; simp [fsLookup_fsWrite]
  · rw [hdb]; simp [fsLookup_fsWrite]

theorem convert_ampfactor_asymmetry_witness :
    fsLookup (convert M1 "ks" "alf" false "" 2 uuidsA SRC fsEmpty).2.2
        "spikes.depths.npy" =
      fsLookup (convert M1 "ks" "alf" false "" 3 uuidsA SRC fsEmpty).2.2
        "spikes.depths.npy" ∧
    fsLookup (convert M1 "ks" "alf" false "" 2 uuidsA SRC fsEmpty).2.2
        "clusters.depths.npy" =
      fsLookup (convert M1 "ks" "alf" false "" 3 uuidsA SRC fsEmpty).2.2
        "clusters.depths.npy" ∧
    fsLookup (convert M1 "ks" "alf" false "" 2 uuidsA SRC fsEmpty).2.2
        "spikes.amps.npy" = some (.npy1 (M1.amplitudes.map (· * 2))) ∧
    fsLookup (convert M1 "ks" "alf" false "" 3 uuidsA SRC fsEmpty).2.2
        "spikes.amps.npy" = some (.npy1 (M1.amplitudes.map (· * 3))) ∧
    fsLookup (convert M1 "ks" "alf" false "" 2 uuidsA SRC fsEmpty).2.2
        "clusters.amps.npy" =
      some (.npy1o ((camps M1).map (Option.map (· * 2)))) ∧
    fsLookup (convert M1 "ks" "alf" false "" 3 uuidsA SRC fsEmpty).2.2
        "clusters.amps.npy" =
      some (.npy1o ((camps M1).map (Option.map (· * 3)))) ∧
    fsLookup (convert M1 "ks" "alf" false "" 2 uuidsA SRC fsEmpty).2.2
        "templates.waveforms.npy" = some (.npy3 (templates_scaled M1 2)) ∧
    fsLookup (convert M1 "ks" "alf" false "" 3 uuidsA SRC fsEmpty).2.2
        "templates.waveforms.npy" = some (.npy3 (templates_scaled M1 3)) ∧
    fsLookup (convert M1 "ks" "alf" false "" 2 uuidsA SRC fsEmpty).2.2
        "clusters.waveforms.npy" = some (.npy3 (templates_scaled M1 2)) ∧
    fsLookup (convert M1 "ks" "alf" false "" 3 uuidsA SRC fsEmpty).2.2
        "clusters.waveforms.npy" = some (.npy3 (templates_scaled M1 3)) :=
  convert_ampfactor_asymmetry M1 "ks" "alf" false 2 3 uuidsA SRC fsEmpty
    (convert M1 "ks" "alf" false "" 2 uuidsA SRC fsEmpty).2.1
    (convert M1 "ks" "alf" false "" 2 uuidsA SRC fsEmpty).2.2
    (convert M1 "ks" "alf" false "" 3 uuidsA SRC fsEmpty).2.1
    (convert M1 "ks" "alf" false "" 3 uuidsA SRC fsEmpty).2.2
    (by decide) (by decide)

/-! ### C10: the source/destination mismatch around `clusters.channels.npy` -/

/-- C10: `make_cluster_objects` consults the *source* for
`clusters.channels.npy` / `clusters.peakToTrough.npy` but writes to the
*destination*, and neither file is on the passthrough copy list; so when the
source already holds `clusters.channels.npy`, the destination never receives
one and the depth stage, which loads that file from the destination, aborts
the conversion; when the source lacks it, the destination receives the
model's peak channels. -/
theorem cluster_channels_src_dst_mismatch (m : TemplateModel) (p q : String)
    (force : Bool) (label : String) (af : ℚ) (u : ℕ → String) (src dst : FS)
    (c0 : FileContent) (src2 dst2 : FS)
    (hpq : p ≠ q)
    (hsrc : fsLookup src "clusters.channels.npy" = some c0)
    (hdst : fsLookup dst "clusters.channels.npy" = none)
    (hsrc2 : fsLookup src2 "clusters.channels.npy" = none) :
    (FILE_RENAMES.map (fun fr => fr.2.1)).contains "clusters.channels.npy" = false ∧
    (FILE_RENAMES.map (fun fr => fr.2.1)).contains "clusters.peakToTrough.npy" = false ∧
    fsLookup (make_channel_objects m (make_cluster_objects m af u src
      (make_spike_times_amplitudes m af (copy_files src force dst))))
      "clusters.channels.npy" = none ∧
    (convert m p q force label af u src dst).1 =
      some (.fileNotFound "clusters.channels.npy") ∧
    fsLookup (convert m p q force label af u src dst).2.2
      "clusters.channels.npy" = none ∧
    fsLookup (make_cluster_objects m af u src2 dst2) "clusters.channels.npy" =
      some (.npy1n m.templates_channels) := by
  have hcc4 : fsLookup (make_channel_objects m (make_cluster_objects m af u src
      (make_spike_times_amplitudes m af (copy_files src force dst))))
      "clusters.channels.npy" = none := by
    rw [lookup_cc_stage4]
    unfold ccVal
    simp [hsrc, hdst]
  have hconv : convert m p q force label af u src dst =
      (some (.fileNotFound "clusters.channels.npy"), src,
        make_channel_objects m (make_cluster_objects m af u src
          (make_spike_times_amplitudes m af (copy_files src force dst)))) := by
    simp only [convert, if_neg hpq, make_depths, hcc4]
  refine ⟨by decide, by decide, hcc4, ?_, ?_, ?_⟩
  · rw [hconv]
  · rw [hconv]
    exact hcc4
  · unfold make_cluster_objects
    simp only [apply_ite (fun fs => fsLookup fs "clusters.channels.npy"),
      fsLookup_fsWrite, hsrc2]
    simp

theorem cluster_channels_src_dst_mismatch_witness :
    (FILE_RENAMES.map (fun fr => fr.2.1)).contains "clusters.channels.npy" = false ∧
    (FILE_RENAMES.map (fun fr => fr.2.1)).contains "clusters.peakToTrough.npy" = false ∧
    fsLookup (make_channel_objects M1 (make_cluster_objects M1 1 uuidsA
      (("clusters.channels.npy", FileContent.npy1n [5]) :: SRC)
      (make_spike_times_amplitudes M1 1
        (copy_files (("clusters.channels.npy", FileContent.npy1n [5]) :: SRC)
          false fsEmpty)))) "clusters.channels.npy" = none ∧
    (convert M1 "ks" "alf" false "" 1 uuidsA
      (("clusters.channels.npy", FileContent.npy1n [5]) :: SRC) fsEmpty).1 =
      some (.fileNotFound "clusters.channels.npy") ∧
    fsLookup (convert M1 "ks" "alf" false "" 1 uuidsA
      (("clusters.channels.npy", FileContent.npy1n [5]) :: SRC) fsEmpty).2.2
      "clusters.channels.npy" = none ∧
    fsLookup (make_cluster_objects M1 1 uuidsA SRC fsEmpty)
      "clusters.channels.npy" = some (.npy1n M1.templates_channels) :=
  cluster_channels_src_dst_mismatch M1 "ks" "alf" false "" 1 uuidsA
    (("clusters.channels.npy", FileContent.npy1n [5]) :: SRC) fsEmpty
    (FileContent.npy1n [5]) SRC fsEmpty
    (by decide) (by decide) (by decide) (by decide)

end Phylib
